import Mathlib

/-!
Shallow embedding of the `apiper` API monitoring engine
(`src/services/monitorService.js`, `src/services/securityMonitorService.js`,
`src/controllers/apiController.js`, `src/models/index.js`).

The Sequelize store is modelled as a `DB` value holding the rows of each
table in insertion order; `findOne` becomes `List.find?` (first row in
insertion order matching the `where` clause), `create` appends a row with
the next auto-increment id, `update`/`save` map over the rows.  Wall-clock
instants and `createdAt`/`timestamp` columns are milliseconds since the
epoch, modelled as `Int`; `moment().subtract(...)` becomes subtraction of
the corresponding number of milliseconds.  Nullable columns become
`Option`, SQL/JS floats become `ℚ` (and `ℝ` where `Math.sqrt` appears).
-/

namespace Apiper

/-- One hour in milliseconds (`moment().subtract(1, "hour")`). -/
def hourMs : Int := 3600000

/-- One day in milliseconds (`moment().subtract(1, "day")`). -/
def dayMs : Int := 86400000

/-- Status enum of `Alert` from `src/models/index.js` (NEW, ACKNOWLEDGED, RESOLVED). -/
inductive AlertStatus where
  | NEW
  | ACKNOWLEDGED
  | RESOLVED
deriving DecidableEq

/-- Status enum of `Incident` (OPEN, ACKNOWLEDGED, RESOLVED). -/
inductive IncidentStatus where
  | OPEN
  | ACKNOWLEDGED
  | RESOLVED
deriving DecidableEq

/-- Severity enum (LOW, MEDIUM, HIGH, CRITICAL). -/
inductive Severity where
  | LOW
  | MEDIUM
  | HIGH
  | CRITICAL
deriving DecidableEq

/-- Type enum of `Alert`. -/
inductive AlertType where
  | RESPONSE_TIME
  | ERROR_RATE
  | AVAILABILITY
  | STATUS_CODE
  | OTHER
deriving DecidableEq

/-- Status enum of `SecurityAlert` (includes FALSE_POSITIVE). -/
inductive SecAlertStatus where
  | NEW
  | ACKNOWLEDGED
  | RESOLVED
  | FALSE_POSITIVE
deriving DecidableEq

/-- Type enum of `SecurityAlert`. -/
inductive SecAlertType where
  | VULNERABILITY
  | RATE_LIMIT
  | AUTH_FAILURE
  | SENSITIVE_DATA
deriving DecidableEq

/-- The five sensitive-data detector kinds of
`securityMonitorService.sensitiveDataPatterns`. -/
inductive SecPatternType where
  | EMAIL
  | CREDIT_CARD
  | SSN
  | SECRET
  | PHONE
deriving DecidableEq

/-- Row of `Endpoint` (the fields the monitoring core reads).
`responseTimeThreshold` is an INTEGER column with `min: 0`, the two rate
thresholds are FLOAT columns. -/
structure Endpoint where
  id : Nat
  path : String
  isActive : Bool
  responseTimeThreshold : Nat
  errorRateThreshold : ℚ
  availabilityThreshold : ℚ
deriving DecidableEq

/-- JSON blob `Metric.metaData`: response headers plus (for the security
scanner) the stringified response data.  `responseData` holds the string
form: the scanner uses `metaData.responseData` directly when it is a
string and `JSON.stringify` of it otherwise; we model the resulting
string. -/
structure MetaData where
  headers : List (String × String)
  responseData : Option String
deriving DecidableEq

/-- Row of `Metric`.  `responseTime` and `statusCode` are nullable columns. -/
structure Metric where
  id : Nat
  endpointId : Nat
  timestamp : Int
  responseTime : Option Nat
  statusCode : Option Int
  success : Bool
  errorMessage : Option String
  metaData : Option MetaData
deriving DecidableEq

/-- Row of `Alert`.  `createdAt` is the Sequelize-managed timestamp column used
by the dedup query in `createAlert`; `timestamp` is the model's own column
(default NOW). -/
structure Alert where
  id : Nat
  endpointId : Nat
  incidentId : Option Nat
  type : AlertType
  message : String
  timestamp : Int
  value : Option ℚ
  threshold : Option ℚ
  status : AlertStatus
  acknowledgedAt : Option Int
  acknowledgedBy : Option String
  createdAt : Int
deriving DecidableEq

/-- Row of `Incident`. -/
structure Incident where
  id : Nat
  endpointId : Nat
  title : String
  message : String
  startTime : Int
  endTime : Option Int
  status : IncidentStatus
  severity : Severity
  statusCode : Option Int
  resolvedBy : Option String
  resolution : Option String
deriving DecidableEq

/-- Row of `SecurityAlert`.  `detectedTypes` models the `details.detectedTypes`
JSON payload (the list of matched pattern types). -/
structure SecurityAlert where
  id : Nat
  endpointId : Nat
  type : SecAlertType
  severity : Severity
  message : String
  detectedTypes : List SecPatternType
  timestamp : Int
  status : SecAlertStatus
  resolvedBy : Option String
  resolvedAt : Option Int
deriving DecidableEq

/-- The store: each table in insertion order plus auto-increment counters. -/
structure DB where
  endpoints : List Endpoint
  metrics : List Metric
  alerts : List Alert
  incidents : List Incident
  securityAlerts : List SecurityAlert
  nextAlertId : Nat
  nextIncidentId : Nat
  nextSecurityAlertId : Nat
deriving DecidableEq

/-- Argument of `monitorService.createAlert`. -/
structure AlertData where
  endpointId : Nat
  type : AlertType
  message : String
  value : Option ℚ
  threshold : Option ℚ
deriving DecidableEq

/-- The `where` clause of the dedup query in `createAlert`:
same endpoint, same type, `status != RESOLVED`,
`createdAt >= moment().subtract(1, "hour")`. -/
def alertDedupMatch (now : Int) (eid : Nat) (ty : AlertType) (a : Alert) : Prop :=
  a.endpointId = eid ∧ a.type = ty ∧ a.status ≠ AlertStatus.RESOLVED ∧
    now - hourMs ≤ a.createdAt

instance (now : Int) (eid : Nat) (ty : AlertType) (a : Alert) :
    Decidable (alertDedupMatch now eid ty a) := by
  unfold alertDedupMatch; infer_instance

/-- Model of `monitorService.createAlert` (monitorService.js lines 366-388): find an
existing non-RESOLVED alert for `(endpointId, type)` created within the last
hour; if found return it and leave the store unchanged, else insert a new
alert (status defaults to NEW, `timestamp` and `createdAt` default to now). -/
def createAlert (db : DB) (now : Int) (d : AlertData) : Alert × DB :=
  match db.alerts.find? (fun a => decide (alertDedupMatch now d.endpointId d.type a)) with
  | some a => (a, db)
  | none =>
    let a : Alert :=
      { id := db.nextAlertId
        endpointId := d.endpointId
        incidentId := none
        type := d.type
        message := d.message
        timestamp := now
        value := d.value
        threshold := d.threshold
        status := AlertStatus.NEW
        acknowledgedAt := none
        acknowledgedBy := none
        createdAt := now }
    (a, { db with alerts := db.alerts ++ [a], nextAlertId := db.nextAlertId + 1 })

/-- The `where` clause of the dedup query in `createIncident` and
`createIncidentFromError`: same endpoint and `status != RESOLVED`. -/
def incidentOpenMatch (eid : Nat) (i : Incident) : Prop :=
  i.endpointId = eid ∧ i.status ≠ IncidentStatus.RESOLVED

instance (eid : Nat) (i : Incident) : Decidable (incidentOpenMatch eid i) := by
  unfold incidentOpenMatch; infer_instance

/-- Argument of `monitorService.createIncident`.  `ty` models the optional
`type` field of the incident data (the linked alert uses
`incidentData.type || "OTHER"`). -/
structure IncidentData where
  endpointId : Nat
  title : String
  message : String
  severity : Severity
  ty : Option AlertType
deriving DecidableEq

/-- Model of `monitorService.createIncident` (monitorService.js lines 443-478): find an
existing non-RESOLVED incident for the endpoint; if found return it and leave
the store unchanged, else insert a new incident (status OPEN,
`startTime = new Date()`) together with a linked alert (status NEW). -/
def createIncident (db : DB) (now : Int) (d : IncidentData) : Incident × DB :=
  match db.incidents.find? (fun i => decide (incidentOpenMatch d.endpointId i)) with
  | some i => (i, db)
  | none =>
    let inc : Incident :=
      { id := db.nextIncidentId
        endpointId := d.endpointId
        title := d.title
        message := d.message
        startTime := now
        endTime := none
        status := IncidentStatus.OPEN
        severity := d.severity
        statusCode := none
        resolvedBy := none
        resolution := none }
    let al : Alert :=
      { id := db.nextAlertId
        endpointId := d.endpointId
        incidentId := some inc.id
        type := d.ty.getD AlertType.OTHER
        message := d.message
        timestamp := now
        value := none
        threshold := none
        status := AlertStatus.NEW
        acknowledgedAt := none
        acknowledgedBy := none
        createdAt := now }
    (inc,
      { db with
        incidents := db.incidents ++ [inc]
        alerts := db.alerts ++ [al]
        nextIncidentId := db.nextIncidentId + 1
        nextAlertId := db.nextAlertId + 1 })

/-- JS expression `metric.statusCode || error.response?.status` on the incident created by
`createIncidentFromError`: JS `||` takes the right operand when the left is
`0` or `null`. -/
def jsOrOpt (a : Option Int) (b : Option Int) : Option Int :=
  match a with
  | some s => if s = 0 then b else some s
  | none => b

/-- Model of `monitorService.createIncidentFromError` (monitorService.js lines
397-436): the transport-failure path.  Same dedup query as `createIncident`;
on a miss it inserts an incident with title `Error detected for <path>`,
message `error.message || "Unknown error"`, status OPEN, severity MEDIUM,
plus a linked STATUS_CODE alert with status NEW.  `errMsg` models
`error.message` (`none` for a falsy message). -/
def createIncidentFromError (db : DB) (now : Int) (e : Endpoint)
    (errMsg : Option String) (errStatus : Option Int) (m : Metric) :
    Incident × DB :=
  match db.incidents.find? (fun i => decide (incidentOpenMatch e.id i)) with
  | some i => (i, db)
  | none =>
    let inc : Incident :=
      { id := db.nextIncidentId
        endpointId := e.id
        title := "Error detected for " ++ e.path
        message := errMsg.getD "Unknown error"
        startTime := now
        endTime := none
        status := IncidentStatus.OPEN
        severity := Severity.MEDIUM
        statusCode := jsOrOpt m.statusCode errStatus
        resolvedBy := none
        resolution := none }
    let al : Alert :=
      { id := db.nextAlertId
        endpointId := e.id
        incidentId := some inc.id
        type := AlertType.STATUS_CODE
        message := "Error detected: " ++ errMsg.getD "Unknown error"
        timestamp := now
        value := none
        threshold := none
        status := AlertStatus.NEW
        acknowledgedAt := none
        acknowledgedBy := none
        createdAt := now }
    (inc,
      { db with
        incidents := db.incidents ++ [inc]
        alerts := db.alerts ++ [al]
        nextIncidentId := db.nextIncidentId + 1
        nextAlertId := db.nextAlertId + 1 })

/-- Outcome of a controller status-update handler: 404 `notFound` or 200 with
the updated row.  (The 400 invalid-status branch is unreachable once the
requested status is modelled as the enum itself, since
`["OPEN","ACKNOWLEDGED","RESOLVED"].includes(status.toUpperCase())` accepts
exactly the enum values.) -/
inductive UpdateResult (α : Type) where
  | notFound
  | ok (a : α)
deriving DecidableEq

/-- Model of `apiController.updateIncidentStatus` (apiController.js lines 663-711):
look up the incident by primary key; set its status; when the new status is
RESOLVED also set `resolution` (defaulting to "Resolved without details"),
`resolvedBy` (request value, else `req.user?.username`, else "System") and
`endTime = new Date()`, and update every alert with this `incidentId` to
status RESOLVED. -/
def updateIncidentStatus (db : DB) (now : Int) (id : Nat)
    (status : IncidentStatus) (resolution : Option String)
    (resolvedBy : Option String) (username : Option String) :
    UpdateResult Incident × DB :=
  match db.incidents.find? (fun i => decide (i.id = id)) with
  | none => (UpdateResult.notFound, db)
  | some inc0 =>
    let inc1 := { inc0 with status := status }
    let inc2 :=
      if status = IncidentStatus.RESOLVED then
        { inc1 with
          resolution := some (resolution.getD "Resolved without details")
          resolvedBy := some (resolvedBy.getD (username.getD "System"))
          endTime := some now }
      else inc1
    let db1 := { db with
      incidents := db.incidents.map (fun i => if i.id = id then inc2 else i) }
    let db2 :=
      if status = IncidentStatus.RESOLVED then
        { db1 with
          alerts := db1.alerts.map (fun a =>
            if a.incidentId = some id then { a with status := AlertStatus.RESOLVED }
            else a) }
      else db1
    (UpdateResult.ok inc2, db2)

/-- Model of `apiController.updateAlertStatus` (apiController.js lines 763-805): look
up the alert by primary key; set its status to the requested value with no
check against the current status; when the new status is ACKNOWLEDGED also
set `acknowledgedAt = new Date()` and
`acknowledgedBy = req.user?.username || "System"`. -/
def updateAlertStatus (db : DB) (now : Int) (id : Nat)
    (status : AlertStatus) (username : Option String) :
    UpdateResult Alert × DB :=
  match db.alerts.find? (fun a => decide (a.id = id)) with
  | none => (UpdateResult.notFound, db)
  | some a0 =>
    let a1 := { a0 with status := status }
    let a2 :=
      if status = AlertStatus.ACKNOWLEDGED then
        { a1 with
          acknowledgedAt := some now
          acknowledgedBy := some (username.getD "System") }
      else a1
    (UpdateResult.ok a2,
      { db with alerts := db.alerts.map (fun a => if a.id = id then a2 else a) })

/-- Model of `securityMonitorService.updateAlertStatus` (securityMonitorService.js
lines 453-475), as reached from `apiController.updateSecurityAlertStatus`
(apiController.js lines 1154-1184): the controller checks the requested
status is one of NEW, ACKNOWLEDGED, RESOLVED, FALSE_POSITIVE (exactly the
enum) and the service then sets it with no check against the current status,
additionally setting `resolvedBy`/`resolvedAt` when the new status is
RESOLVED. -/
def updateSecurityAlertStatus (db : DB) (now : Int) (id : Nat)
    (status : SecAlertStatus) (resolvedBy : Option String) :
    UpdateResult SecurityAlert × DB :=
  match db.securityAlerts.find? (fun a => decide (a.id = id)) with
  | none => (UpdateResult.notFound, db)
  | some a0 =>
    let a1 := { a0 with status := status }
    let a2 :=
      if status = SecAlertStatus.RESOLVED then
        { a1 with resolvedBy := resolvedBy, resolvedAt := some now }
      else a1
    (UpdateResult.ok a2,
      { db with securityAlerts :=
          db.securityAlerts.map (fun a => if a.id = id then a2 else a) })

/-- The trailing-1h metric query shared by `checkErrorRate` and
`checkAvailability`: metrics of the endpoint with
`timestamp >= moment().subtract(1, "hour")`. -/
def hourMetrics (db : DB) (now : Int) (eid : Nat) : List Metric :=
  db.metrics.filter (fun m => decide (m.endpointId = eid ∧ now - hourMs ≤ m.timestamp))

/-- The error rate computed by `checkErrorRate`:
`(errorMetrics / totalMetrics) * 100` over the trailing-hour metrics. -/
def errorRateOf (ms : List Metric) : ℚ :=
  (((ms.filter (fun m => !m.success)).length : ℚ) / (ms.length : ℚ)) * 100

/-- Numeric rendering used inside alert/incident message strings; JS
`toFixed(2)` formatting is abstracted to `toString` (no claim concerns the
formatted digits). -/
def q2s (q : ℚ) : String := toString q

/-- Model of `monitorService.checkErrorRate` (monitorService.js lines 250-300): over
the trailing-hour metrics (skip when none), if the error rate exceeds
`errorRateThreshold` create an ERROR_RATE alert (value = rate, threshold =
configured); if it also exceeds twice the threshold create a HIGH incident
titled `High Error Rate for <path>`. -/
def checkErrorRate (db : DB) (now : Int) (e : Endpoint) : DB :=
  let ms := hourMetrics db now e.id
  if ms.length = 0 then db
  else
    let rate := errorRateOf ms
    if e.errorRateThreshold < rate then
      let db1 := (createAlert db now
        { endpointId := e.id
          type := AlertType.ERROR_RATE
          message := "Error rate (" ++ q2s rate ++ "%) exceeds threshold (" ++
            q2s e.errorRateThreshold ++ "%)"
          value := some rate
          threshold := some e.errorRateThreshold }).2
      if e.errorRateThreshold * 2 < rate then
        (createIncident db1 now
          { endpointId := e.id
            title := "High Error Rate for " ++ e.path
            message := "Error rate of " ++ q2s rate ++
              "% exceeds twice the threshold of " ++ q2s e.errorRateThreshold ++ "%"
            severity := Severity.HIGH
            ty := none }).2
      else db1
    else db

/-- The availability computed by `checkAvailability`:
`(successMetrics / totalMetrics) * 100` over the trailing-hour metrics. -/
def availabilityOf (ms : List Metric) : ℚ :=
  (((ms.filter (fun m => m.success)).length : ℚ) / (ms.length : ℚ)) * 100

/-- Model of `monitorService.checkAvailability` (monitorService.js lines 307-359):
over the trailing-hour metrics (skip when none), if availability is below
`availabilityThreshold` create an AVAILABILITY alert; if it is below the
threshold minus 10 create a HIGH incident titled
`Low Availability for <path>`. -/
def checkAvailability (db : DB) (now : Int) (e : Endpoint) : DB :=
  let ms := hourMetrics db now e.id
  if ms.length = 0 then db
  else
    let avail := availabilityOf ms
    if avail < e.availabilityThreshold then
      let db1 := (createAlert db now
        { endpointId := e.id
          type := AlertType.AVAILABILITY
          message := "Availability (" ++ q2s avail ++ "%) is below threshold (" ++
            q2s e.availabilityThreshold ++ "%)"
          value := some avail
          threshold := some e.availabilityThreshold }).2
      if avail < e.availabilityThreshold - 10 then
        (createIncident db1 now
          { endpointId := e.id
            title := "Low Availability for " ++ e.path
            message := "Availability of " ++ q2s avail ++
              "% is significantly below threshold of " ++
              q2s e.availabilityThreshold ++ "%"
            severity := Severity.HIGH
            ty := none }).2
      else db1
    else db

/-- The failure `Metric` persisted by the catch branch of
`monitorService.collectEndpointMetrics` (monitorService.js lines 187-206):
`success = false`, `errorMessage = error.message`,
`statusCode = error.response?.status || 0` (so never null; `errStatus` is
`error.response?.status`, `none` when the transport produced no response).
No `responseTime` is set on this path. -/
def failureMetric (nextId : Nat) (e : Endpoint) (now : Int)
    (errMsg : String) (errStatus : Option Int) : Metric :=
  { id := nextId
    endpointId := e.id
    timestamp := now
    responseTime := none
    statusCode := some (errStatus.getD 0)
    success := false
    errorMessage := some errMsg
    metaData := some { headers := [], responseData := none } }

/-- The trailing-24h metric query of `calculateEndpointHealthScore`. -/
def dayMetrics (db : DB) (now : Int) (eid : Nat) : List Metric :=
  db.metrics.filter (fun m => decide (m.endpointId = eid ∧ now - dayMs ≤ m.timestamp))

/-- Number of successful metrics (`metrics.filter((m) => m.success).length`). -/
def successCount (ms : List Metric) : Nat :=
  (ms.filter (fun m => m.success)).length

/-- Availability component of the health score:
`(successfulRequests / metrics.length) * 40`. -/
def availabilityScore (ms : List Metric) : ℚ :=
  ((successCount ms : ℚ) / (ms.length : ℚ)) * 40

/-- Average response time over the 24h metrics, with null response times read
as 0: `metrics.reduce((sum, m) => sum + (m.responseTime || 0), 0) /
metrics.length`. -/
def avgResponseTime (ms : List Metric) : ℚ :=
  ((ms.map (fun m => m.responseTime.getD 0)).sum : ℚ) / (ms.length : ℚ)

/-- Response-time component:
`Math.min(1, responseTimeThreshold / (avgResponseTime || 1)) * 30` — a zero
average (JS falsy) is replaced by 1. -/
def responseTimeScore (e : Endpoint) (ms : List Metric) : ℚ :=
  min 1 ((e.responseTimeThreshold : ℚ) /
    (if avgResponseTime ms = 0 then 1 else avgResponseTime ms)) * 30

/-- Observed error-rate percentage:
`((metrics.length - successfulRequests) / metrics.length) * 100`. -/
def healthErrorRate (ms : List Metric) : ℚ :=
  (((ms.length - successCount ms : ℕ) : ℚ) / (ms.length : ℚ)) * 100

/-- Error-rate component:
`Math.min(1, errorRateThreshold / (errorRate || 0.1)) * 20` — a zero observed
rate (JS falsy) is replaced by 0.1. -/
def errorRateScore (e : Endpoint) (ms : List Metric) : ℚ :=
  min 1 (e.errorRateThreshold /
    (if healthErrorRate ms = 0 then 1 / 10 else healthErrorRate ms)) * 20

/-- The nonzero response-time samples used for the stability component:
`metrics.map((m) => m.responseTime || 0).filter((t) => t > 0)`. -/
def responseTimeValues (ms : List Metric) : List Nat :=
  (ms.map (fun m => m.responseTime.getD 0)).filter (fun t => 0 < t)

/-- Population mean square deviation (`avgSquareDiff`) of the samples; for an
empty sample list JS produces NaN here (0/0), which the later `|| 1` turns
into 1 — we return 0, which the same guard also turns into 1. -/
def avgSquareDiff (vs : List Nat) : ℚ :=
  let avg : ℚ := ((vs.map (fun v => (v : ℚ))).sum) / (vs.length : ℚ)
  ((vs.map (fun v => ((v : ℚ) - avg) ^ 2)).sum) / (vs.length : ℚ)

/-- Population standard deviation `Math.sqrt(avgSquareDiff)`. -/
noncomputable def stdDeviation (vs : List Nat) : ℝ :=
  Real.sqrt (avgSquareDiff vs)

/-- Divisor actually used by the stability ratio: `stdDeviation || 1` (1 when
the standard deviation is 0, or NaN from an empty sample list). -/
noncomputable def stabilityDivisor (vs : List Nat) : ℝ :=
  if stdDeviation vs = 0 then 1 else stdDeviation vs

/-- Stability component: `Math.min(1, 100 / (stdDeviation || 1)) * 10`. -/
noncomputable def stabilityScore (ms : List Metric) : ℝ :=
  min 1 (100 / stabilityDivisor (responseTimeValues ms)) * 10

/-- Total health score before rounding. -/
noncomputable def healthTotalReal (e : Endpoint) (ms : List Metric) : ℝ :=
  (availabilityScore ms : ℝ) + (responseTimeScore e ms : ℝ) +
    (errorRateScore e ms : ℝ) + stabilityScore ms

/-- Model of `monitorService.calculateEndpointHealthScore` (monitorService.js
lines 798-884), restricted to its score output: over the trailing-24h
metrics of the endpoint, return `null` (`none`) when there are none, else
`Math.round` of the weighted component sum. -/
noncomputable def calculateEndpointHealthScore (db : DB) (now : Int)
    (e : Endpoint) : Option ℤ :=
  let ms := dayMetrics db now e.id
  if ms.length = 0 then none
  else some (round (healthTotalReal e ms))

/-- Time units of `getEndpointMetrics`'s `switch` on the parsed unit char. -/
inductive TimeUnit where
  | hours
  | days
  | weeks
  | months
  | years
deriving DecidableEq

/-- The `switch (unit)` of `getEndpointMetrics`, mapping the matched unit
character to a moment unit; characters outside `hdwmy` never reach the
switch because the regex already rejected them. -/
def charUnit : Char → Option TimeUnit
  | 'h' => some TimeUnit.hours
  | 'd' => some TimeUnit.days
  | 'w' => some TimeUnit.weeks
  | 'm' => some TimeUnit.months
  | 'y' => some TimeUnit.years
  | _ => none

/-- Decimal value of a digit string (`parseInt(timeParts[1])`); 48 is the
code point of the digit zero. -/
def digitsToNat (ds : List Char) : Nat :=
  ds.foldl (fun n c => n * 10 + (c.toNat - 48)) 0

/-- The time-range parse of `getEndpointMetrics` (monitorService.js lines
628-662): the regex match against one-or-more digits followed by a single
unit character in `hdwmy`, anchored at both ends, then `parseInt` of the
digits and the unit switch. -/
def parseTimeRange (s : String) : Option (Nat × TimeUnit) :=
  match s.data.reverse with
  | [] => none
  | u :: rds =>
    let ds := rds.reverse
    if !ds.isEmpty && ds.all Char.isDigit then
      (charUnit u).map (fun tu => (digitsToNat ds, tu))
    else none

/-- Millisecond length of the fixed-length time units; months and years are
calendar-dependent in `moment` and have no fixed millisecond length, hence
`none` (no claim exercises their duration). -/
def unitFixedMs : TimeUnit → Option Int
  | TimeUnit.hours => some hourMs
  | TimeUnit.days => some dayMs
  | TimeUnit.weeks => some (7 * dayMs)
  | _ => none

/-- Start boundary `moment().subtract(value, timeUnit)` for the fixed-length
units. -/
def timeRangeStart (now : Int) (v : Nat) (u : TimeUnit) : Option Int :=
  (unitFixedMs u).map (fun msLen => now - (v : Int) * msLen)

/-- The validation-and-lookup head of `getEndpointMetrics`: an invalid time
range throws synchronously before any store access, then the endpoint is
looked up (`Endpoint not found` when absent); only on success does the
function go on to query metrics. -/
def getEndpointMetricsParse (db : DB) (endpointId : Nat) (timeRange : String) :
    Except String (Nat × TimeUnit × Endpoint) :=
  match parseTimeRange timeRange with
  | none => Except.error "Invalid time range format. Use format like 1h, 24h, 7d, etc."
  | some (v, u) =>
    match db.endpoints.find? (fun e => decide (e.id = endpointId)) with
    | none => Except.error "Endpoint not found"
    | some e => Except.ok (v, u, e)

/-- JS regex word character (for the word-boundary assertions in the
sensitive-data patterns): letters, digits, underscore. -/
def isWordChar (c : Char) : Bool :=
  c.isAlphanum || c == '_'

/-- Whether the character at index `i` is a word character; out-of-range
counts as non-word. -/
def wordAt (cs : List Char) (i : Nat) : Bool :=
  match cs.get? i with
  | some c => isWordChar c
  | none => false

/-- JS word boundary before index `i`: the word-ness of the characters on the
two sides differs. -/
def boundaryAt (cs : List Char) (i : Nat) : Bool :=
  (if i = 0 then false else wordAt cs (i - 1)) != wordAt cs i

/-- Character class of the local part of the EMAIL pattern. -/
def isLocalChar (c : Char) : Bool :=
  c.isAlphanum || c == '.' || c == '_' || c == '%' || c == '+' || c == '-'

/-- Character class of the domain part of the EMAIL pattern. -/
def isDomainChar (c : Char) : Bool :=
  c.isAlphanum || c == '.' || c == '-'

/-- Existence of a match of the EMAIL detector: a word boundary, one or more
local characters, an at sign, one or more domain characters, a dot, at least
two letters, and a closing word boundary. -/
def emailHasMatch (s : String) : Bool :=
  let cs := s.data
  (List.range cs.length).any (fun i =>
    boundaryAt cs i &&
    (List.range cs.length).any (fun j =>
      decide (i < j) && cs.get? j == some '@' &&
      ((cs.drop i).take (j - i)).all isLocalChar &&
      (List.range cs.length).any (fun k =>
        decide (j + 1 < k) && cs.get? k == some '.' &&
        ((cs.drop (j + 1)).take (k - (j + 1))).all isDomainChar &&
        (let tld := (cs.drop (k + 1)).takeWhile Char.isAlpha
         decide (2 ≤ tld.length) && !(wordAt cs (k + 1 + tld.length))))))

/-- Separator characters of the CREDIT_CARD pattern (space or hyphen). -/
def isSepChar (c : Char) : Bool :=
  c == ' ' || c == '-'

/-- Continuation of a CREDIT_CARD match: having just consumed `cnt` digits
(whose last one immediately precedes `cs`), either end here — allowed once 13
to 16 digits were read and the next character is not a word character — or
skip separators and read another digit. -/
def ccCont (cs : List Char) (cnt : Nat) : Bool :=
  (decide (13 ≤ cnt) && decide (cnt ≤ 16) && !(wordAt cs 0)) ||
  (decide (cnt < 16) &&
    (match h : cs.dropWhile isSepChar with
     | [] => false
     | c :: tl => c.isDigit && ccCont tl (cnt + 1)))
termination_by cs.length
decreasing_by
  have h1 : (cs.dropWhile isSepChar).length ≤ cs.length :=
    (List.dropWhile_suffix isSepChar).sublist.length_le
  rw [h] at h1
  simp only [List.length_cons] at h1
  omega

/-- Existence of a match of the CREDIT_CARD detector: a word boundary, then
13 to 16 digits each optionally followed by separators, then a word
boundary. -/
def creditCardHasMatch (s : String) : Bool :=
  let cs := s.data
  (List.range cs.length).any (fun i =>
    boundaryAt cs i &&
    (match cs.drop i with
     | [] => false
     | c :: tl => c.isDigit && ccCont tl 1))

/-- Existence of a match of the SSN detector: word boundary, three digits,
hyphen, two digits, hyphen, four digits, word boundary. -/
def ssnHasMatch (s : String) : Bool :=
  let cs := s.data
  (List.range cs.length).any (fun i =>
    boundaryAt cs i &&
    (let seg := (cs.drop i).take 11
     decide (seg.length = 11) &&
     (seg.take 3).all Char.isDigit &&
     seg.get? 3 == some '-' &&
     ((seg.drop 4).take 2).all Char.isDigit &&
     seg.get? 6 == some '-' &&
     (seg.drop 7).all Char.isDigit &&
     !(wordAt cs (i + 11))))

/-- The eight credential keywords of the SECRET pattern. -/
def secretKeywords : List (List Char) :=
  ["password".data, "apikey".data, "secret".data, "token".data, "auth".data,
   "jwt".data, "access_token".data, "refresh_token".data]

/-- Single or double quote (39 is the code point of the single quote). -/
def isQuote (c : Char) : Bool :=
  c == '"' || c == Char.ofNat 39

/-- Characters allowed in the segments of the JWT alternative of the SECRET
pattern. -/
def isJwtChar (c : Char) : Bool :=
  c.isAlphanum || c == '_' || c == '-'

/-- The tail of each keyword alternative of the SECRET pattern: optional
whitespace, a colon or equals sign, optional whitespace, a quote, one or
more non-quote characters, and a closing quote. -/
def kwValueMatch (cs : List Char) : Bool :=
  match cs.dropWhile Char.isWhitespace with
  | [] => false
  | c :: r2 =>
    (c == ':' || c == '=') &&
    (match r2.dropWhile Char.isWhitespace with
     | [] => false
     | q :: r4 =>
       isQuote q &&
       (let body := r4.takeWhile (fun ch => !isQuote ch)
        !body.isEmpty && !(r4.drop body.length).isEmpty))

/-- Existence of a match of the JWT alternative of the SECRET pattern: a word
boundary, at least 21 JWT characters, a dot, at least 6, a dot, at least 27,
and a closing word boundary (which, because a hyphen is a non-word JWT
character, may fall inside the final run). -/
def jwtHasMatch (s : String) : Bool :=
  let cs := s.data
  (List.range cs.length).any (fun i =>
    boundaryAt cs i &&
    (let r := cs.drop i
     let a := r.takeWhile isJwtChar
     decide (21 ≤ a.length) &&
     (match r.drop a.length with
      | [] => false
      | c1 :: r2 =>
        c1 == '.' &&
        (let b := r2.takeWhile isJwtChar
         decide (6 ≤ b.length) &&
         (match r2.drop b.length with
          | [] => false
          | c2 :: r4 =>
            c2 == '.' &&
            (let cseg := r4.takeWhile isJwtChar
             let base := i + a.length + 1 + b.length + 1
             decide (27 ≤ cseg.length) &&
             (List.range (cseg.length + 1)).any (fun e =>
               decide (27 ≤ e) && boundaryAt cs (base + e))))))))

/-- Existence of a match of the SECRET detector: one of the eight quoted
credential-assignment alternatives, or the JWT-shaped alternative. -/
def secretHasMatch (s : String) : Bool :=
  let cs := s.data
  (secretKeywords.any (fun kw =>
    (List.range cs.length).any (fun i =>
      boundaryAt cs i &&
      ((cs.drop i).take kw.length == kw) &&
      kwValueMatch (cs.drop (i + kw.length))))) ||
  jwtHasMatch s

/-- Separator class of the PHONE pattern (whitespace, dot or hyphen). -/
def isPhoneSep (c : Char) : Bool :=
  c.isWhitespace || c == '.' || c == '-'

/-- Consume exactly `k` digits. -/
def dropDigits : List Char → Nat → Option (List Char)
  | cs, 0 => some cs
  | [], _ + 1 => none
  | c :: tl, k + 1 => if c.isDigit then dropDigits tl k else none

/-- Remainders after the optional international prefix of the PHONE pattern:
nothing, or a plus sign, one or two digits and a whitespace character. -/
def phonePrefixRemainders (cs : List Char) : List (List Char) :=
  cs ::
    (match cs with
     | c :: d1 :: rest =>
       if c == '+' && d1.isDigit then
         (match rest with
          | s :: r => if s.isWhitespace then [r] else []
          | [] => []) ++
         (match rest with
          | d2 :: s2 :: r2 =>
            if d2.isDigit && s2.isWhitespace then [r2] else []
          | _ => [])
       else []
     | _ => [])

/-- Remainders after an optional single character satisfying `p`. -/
def optChar (p : Char → Bool) (cs : List Char) : List (List Char) :=
  match cs with
  | c :: tl => if p c then [cs, tl] else [cs]
  | [] => [cs]

/-- Existence of a match of the PHONE detector: a word boundary, the optional
international prefix, an optional opening parenthesis, three digits, an
optional closing parenthesis, an optional separator, three digits, an
optional separator, four digits, and a closing word boundary. -/
def phoneHasMatch (s : String) : Bool :=
  let cs := s.data
  (List.range cs.length).any (fun i =>
    boundaryAt cs i &&
    ((phonePrefixRemainders (cs.drop i)).any (fun r1 =>
      (optChar (fun c => c == '(') r1).any (fun r2 =>
        match dropDigits r2 3 with
        | none => false
        | some r3 =>
          (optChar (fun c => c == ')') r3).any (fun r4 =>
            (optChar isPhoneSep r4).any (fun r5 =>
              match dropDigits r5 3 with
              | none => false
              | some r6 =>
                (optChar isPhoneSep r6).any (fun r7 =>
                  match dropDigits r7 4 with
                  | none => false
                  | some r8 => !(wordAt r8 0))))))))

/-- Whether a detector matches somewhere in the stringified response data.
Match existence is modelled; the per-pattern match counts stored in the
alert details are abstracted away. -/
def patternHasMatch : SecPatternType → String → Bool
  | SecPatternType.EMAIL, s => emailHasMatch s
  | SecPatternType.CREDIT_CARD, s => creditCardHasMatch s
  | SecPatternType.SSN, s => ssnHasMatch s
  | SecPatternType.SECRET, s => secretHasMatch s
  | SecPatternType.PHONE, s => phoneHasMatch s

/-- The fixed order of `sensitiveDataPatterns`. -/
def patternOrder : List SecPatternType :=
  [SecPatternType.EMAIL, SecPatternType.CREDIT_CARD, SecPatternType.SSN,
   SecPatternType.SECRET, SecPatternType.PHONE]

/-- The `foundPatterns` list of `scanSensitiveData`, reduced to the matched
pattern types. -/
def foundTypes (s : String) : List SecPatternType :=
  patternOrder.filter (fun p => patternHasMatch p s)

/-- The `where` clause of the dedup query on security alerts: same endpoint,
given type, `status != RESOLVED`, `timestamp` within the given window. -/
def secDedupMatch (windowStart : Int) (eid : Nat) (ty : SecAlertType)
    (a : SecurityAlert) : Prop :=
  a.endpointId = eid ∧ a.type = ty ∧ a.status ≠ SecAlertStatus.RESOLVED ∧
    windowStart ≤ a.timestamp

instance (windowStart : Int) (eid : Nat) (ty : SecAlertType) (a : SecurityAlert) :
    Decidable (secDedupMatch windowStart eid ty a) := by
  unfold secDedupMatch; infer_instance

/-- The metric query of `scanSensitiveData`: trailing-hour metrics of the
endpoint with non-null `metaData`, limited to 100 rows (the query has no
ORDER BY clause; SQL row order is modelled as insertion order). -/
def sensitiveScanMetrics (db : DB) (now : Int) (eid : Nat) : List Metric :=
  (db.metrics.filter (fun m =>
    decide (m.endpointId = eid ∧ now - hourMs ≤ m.timestamp ∧ m.metaData ≠ none))).take 100

/-- One iteration of the metric loop of `scanSensitiveData`: skip metrics
without response data; on any pattern match, create one HIGH SENSITIVE_DATA
alert unless a non-RESOLVED SENSITIVE_DATA alert for the endpoint already
exists within the trailing hour. -/
def scanStep (now : Int) (eid : Nat) (db : DB) (m : Metric) : DB :=
  match m.metaData with
  | none => db
  | some md =>
    match md.responseData with
    | none => db
    | some rd =>
      if foundTypes rd = [] then db
      else
        match db.securityAlerts.find? (fun a =>
          decide (secDedupMatch (now - hourMs) eid SecAlertType.SENSITIVE_DATA a)) with
        | some _ => db
        | none =>
          { db with
            securityAlerts := db.securityAlerts ++
              [{ id := db.nextSecurityAlertId
                 endpointId := eid
                 type := SecAlertType.SENSITIVE_DATA
                 severity := Severity.HIGH
                 message := "Sensitive data exposure detected in API response"
                 detectedTypes := foundTypes rd
                 timestamp := now
                 status := SecAlertStatus.NEW
                 resolvedBy := none
                 resolvedAt := none }]
            nextSecurityAlertId := db.nextSecurityAlertId + 1 }

/-- Model of `securityMonitorService.scanSensitiveData`
(securityMonitorService.js lines 252-326): fetch the limited trailing-hour
metric set once, then run the per-metric loop. -/
def scanSensitiveData (db : DB) (now : Int) (e : Endpoint) : DB :=
  (sensitiveScanMetrics db now e.id).foldl (scanStep now e.id) db

/-! Helper lemmas about `List.find?` used across the verification. -/

/-- A `find?` result stays the first hit under a stronger filter that it
still satisfies. -/
theorem find?_restrict {α : Type} {p q : α → Bool} {l : List α} {a : α}
    (hmono : ∀ x, q x = true → p x = true)
    (hfind : l.find? p = some a) (hq : q a = true) :
    l.find? q = some a := by
  induction l with
  | nil => simp at hfind
  | cons x xs ih =>
    by_cases hx : p x = true
    · rw [List.find?_cons_of_pos _ hx] at hfind
      obtain rfl : x = a := by injection hfind
      exact List.find?_cons_of_pos _ hq
    · have hqx : ¬q x = true := fun hxq => hx (hmono x hxq)
      rw [List.find?_cons_of_neg _ hx] at hfind
      rw [List.find?_cons_of_neg _ hqx]
      exact ih hfind

/-- The dedup window only shrinks as `now` advances. -/
theorem alertDedupMatch_mono {t1 t2 : Int} {eid : Nat} {ty : AlertType}
    {a : Alert} (h : t1 ≤ t2) (hm : alertDedupMatch t2 eid ty a) :
    alertDedupMatch t1 eid ty a := by
  obtain ⟨h1, h2, h3, h4⟩ := hm
  exact ⟨h1, h2, h3, by omega⟩

/-! Concrete sample data used by the witnesses. -/

/-- An empty store. -/
def dbEmpty : DB :=
  { endpoints := []
    metrics := []
    alerts := []
    incidents := []
    securityAlerts := []
    nextAlertId := 1
    nextIncidentId := 1
    nextSecurityAlertId := 1 }

/-- A sample alert payload. -/
def alertData0 : AlertData :=
  { endpointId := 1
    type := AlertType.RESPONSE_TIME
    message := "Response time exceeds threshold"
    value := some 800
    threshold := some 500 }

/-- C1: `createAlert` is idempotent under deduplication.  If a non-RESOLVED
alert for the same `(endpointId, type)` created within the trailing hour
exists (the first such row being what `findOne` returns), it is returned
unchanged and nothing is inserted; otherwise a new alert with status NEW is
appended; and a second `createAlert` with the same `(endpointId, type)`
inside the suppression window returns the same alert identity and leaves the
store unchanged. -/
theorem createAlert_dedup_idempotent (db : DB) (now : Int) (d : AlertData) :
    (∀ a0, db.alerts.find? (fun a => decide (alertDedupMatch now d.endpointId d.type a)) = some a0 →
      createAlert db now d = (a0, db)) ∧
    (db.alerts.find? (fun a => decide (alertDedupMatch now d.endpointId d.type a)) = none →
      (createAlert db now d).2.alerts = db.alerts ++ [(createAlert db now d).1] ∧
      (createAlert db now d).1.status = AlertStatus.NEW ∧
      (createAlert db now d).1.endpointId = d.endpointId ∧
      (createAlert db now d).1.type = d.type ∧
      (createAlert db now d).1.createdAt = now) ∧
    (∀ t2, now ≤ t2 → t2 ≤ (createAlert db now d).1.createdAt + hourMs →
      createAlert (createAlert db now d).2 t2 d =
        ((createAlert db now d).1, (createAlert db now d).2)) := by
  have hmono : ∀ t2, now ≤ t2 → ∀ x : Alert,
      (fun a => decide (alertDedupMatch t2 d.endpointId d.type a)) x = true →
      (fun a => decide (alertDedupMatch now d.endpointId d.type a)) x = true := by
    intro t2 ht x hx
    simp only [decide_eq_true_iff] at hx ⊢
    exact alertDedupMatch_mono ht hx
  cases h : db.alerts.find? (fun a => decide (alertDedupMatch now d.endpointId d.type a)) with
  | some a0 =>
    have hres : createAlert db now d = (a0, db) := by
      unfold createAlert
      rw [h]
    have ha0 : alertDedupMatch now d.endpointId d.type a0 := by
      have := List.find?_some h
      simpa using this
    refine ⟨?_, ?_, ?_⟩
    · intro a1 h1
      cases h1
      exact hres
    · intro hnone
      simp at hnone
    · intro t2 ht2 hwin
      rw [hres] at hwin ⊢
      have hq : (fun a => decide (alertDedupMatch t2 d.endpointId d.type a)) a0 = true := by
        simp only [decide_eq_true_iff]
        exact ⟨ha0.1, ha0.2.1, ha0.2.2.1, by simp only at hwin; omega⟩
      have hfind2 : db.alerts.find?
          (fun a => decide (alertDedupMatch t2 d.endpointId d.type a)) = some a0 :=
        find?_restrict (hmono t2 ht2) h hq
      unfold createAlert
      rw [hfind2]
  | none =>
    have hall : ∀ x ∈ db.alerts,
        ¬(fun a => decide (alertDedupMatch now d.endpointId d.type a)) x = true :=
      List.find?_eq_none.mp h
    rcases hX : createAlert db now d with ⟨na, db2⟩
    have hna : na = { id := db.nextAlertId
                      endpointId := d.endpointId
                      incidentId := none
                      type := d.type
                      message := d.message
                      timestamp := now
                      value := d.value
                      threshold := d.threshold
                      status := AlertStatus.NEW
                      acknowledgedAt := none
                      acknowledgedBy := none
                      createdAt := now } ∧
        db2 = { db with alerts := db.alerts ++ [na], nextAlertId := db.nextAlertId + 1 } := by
      have := hX
      unfold createAlert at this
      rw [h] at this
      cases this
      exact ⟨rfl, rfl⟩
    obtain ⟨hna1, hna2⟩ := hna
    refine ⟨?_, ?_, ?_⟩
    · intro a1 h1
      simp at h1
    · intro _
      simp only
      refine ⟨by rw [hna2], ?_, ?_, ?_, ?_⟩ <;> rw [hna1]
    · intro t2 ht2 hwin
      simp only at hwin ⊢
      have hca : na.createdAt = now := by rw [hna1]
      rw [hca] at hwin
      have hq : (fun a => decide (alertDedupMatch t2 d.endpointId d.type a)) na = true := by
        simp only [decide_eq_true_iff]
        rw [hna1]
        exact ⟨rfl, rfl, by simp, by simp only; omega⟩
      have hnone2 : db.alerts.find?
          (fun a => decide (alertDedupMatch t2 d.endpointId d.type a)) = none := by
        rw [List.find?_eq_none]
        intro x hx hcontra
        exact hall x hx (hmono t2 ht2 x hcontra)
      have hfind2 : db2.alerts.find?
          (fun a => decide (alertDedupMatch t2 d.endpointId d.type a)) = some na := by
        rw [hna2]
        simp only
        rw [List.find?_append, hnone2]
        simp only [Option.none_or]
        exact List.find?_cons_of_pos _ hq
      unfold createAlert
      rw [hfind2]

/-- Witness for C1 at a concrete input: on an empty store the second call
inside the window returns the very alert the first call inserted, whose
status is NEW. -/
theorem createAlert_dedup_idempotent_witness :
    createAlert (createAlert dbEmpty 0 alertData0).2 1000 alertData0 =
      ((createAlert dbEmpty 0 alertData0).1, (createAlert dbEmpty 0 alertData0).2) ∧
    (createAlert dbEmpty 0 alertData0).1.status = AlertStatus.NEW :=
  ⟨(createAlert_dedup_idempotent dbEmpty 0 alertData0).2.2 1000 (by decide) (by decide),
   ((createAlert_dedup_idempotent dbEmpty 0 alertData0).2.1 rfl).2.1⟩

/-- The spec invariant: at most one non-RESOLVED incident per endpoint. -/
def incidentInvariant (db : DB) : Prop :=
  ∀ eid, db.incidents.countP (fun i => decide (incidentOpenMatch eid i)) ≤ 1

/-- Inserting a fresh open incident for an endpoint that the dedup query
found no open incident for preserves the at-most-one invariant. -/
theorem incidentInvariant_insert {db : DB} {eid : Nat} {inc : Incident}
    (hnone : db.incidents.find? (fun i => decide (incidentOpenMatch eid i)) = none)
    (hinc : inc.endpointId = eid)
    (hinv : incidentInvariant db) (eid2 : Nat) :
    (db.incidents ++ [inc]).countP (fun i => decide (incidentOpenMatch eid2 i)) ≤ 1 := by
  rw [List.countP_append]
  by_cases heq : eid2 = eid
  · subst heq
    have h0 : db.incidents.countP (fun i => decide (incidentOpenMatch eid2 i)) = 0 := by
      rw [List.countP_eq_zero]
      exact List.find?_eq_none.mp hnone
    have h1 : [inc].countP (fun i => decide (incidentOpenMatch eid2 i)) ≤ 1 :=
      le_trans (List.countP_le_length _) (by simp)
    omega
  · have h1 : [inc].countP (fun i => decide (incidentOpenMatch eid2 i)) = 0 := by
      rw [List.countP_eq_zero]
      intro x hx
      simp only [List.mem_singleton] at hx
      subst hx
      simp only [decide_eq_true_iff, incidentOpenMatch, hinc]
      rintro ⟨h2, -⟩
      exact heq h2.symm
    have h2 := hinv eid2
    omega

/-- C2: at most one non-RESOLVED incident exists per endpoint.  Both
`createIncident` and the transport-failure path `createIncidentFromError`
first look for an existing non-RESOLVED incident for the endpoint and, if
one exists, return it unchanged without inserting; only when none exists do
they insert a new incident with status OPEN and `startTime = now` together
with a linked alert with status NEW; and both preserve the at-most-one
invariant. -/
theorem createIncident_unique_open (db : DB) (now : Int) (d : IncidentData)
    (e : Endpoint) (errMsg : Option String) (errStatus : Option Int) (m : Metric) :
    (∀ i0, db.incidents.find? (fun i => decide (incidentOpenMatch d.endpointId i)) = some i0 →
      createIncident db now d = (i0, db)) ∧
    (db.incidents.find? (fun i => decide (incidentOpenMatch d.endpointId i)) = none →
      (createIncident db now d).2.incidents = db.incidents ++ [(createIncident db now d).1] ∧
      (createIncident db now d).1.status = IncidentStatus.OPEN ∧
      (createIncident db now d).1.startTime = now ∧
      (createIncident db now d).1.endpointId = d.endpointId ∧
      ∃ al, (createIncident db now d).2.alerts = db.alerts ++ [al] ∧
        al.status = AlertStatus.NEW ∧
        al.incidentId = some (createIncident db now d).1.id ∧
        al.endpointId = d.endpointId) ∧
    (∀ i0, db.incidents.find? (fun i => decide (incidentOpenMatch e.id i)) = some i0 →
      createIncidentFromError db now e errMsg errStatus m = (i0, db)) ∧
    (db.incidents.find? (fun i => decide (incidentOpenMatch e.id i)) = none →
      (createIncidentFromError db now e errMsg errStatus m).2.incidents =
        db.incidents ++ [(createIncidentFromError db now e errMsg errStatus m).1] ∧
      (createIncidentFromError db now e errMsg errStatus m).1.status = IncidentStatus.OPEN ∧
      (createIncidentFromError db now e errMsg errStatus m).1.startTime = now ∧
      (createIncidentFromError db now e errMsg errStatus m).1.severity = Severity.MEDIUM ∧
      (createIncidentFromError db now e errMsg errStatus m).1.endpointId = e.id ∧
      ∃ al, (createIncidentFromError db now e errMsg errStatus m).2.alerts = db.alerts ++ [al] ∧
        al.status = AlertStatus.NEW ∧
        al.incidentId = some (createIncidentFromError db now e errMsg errStatus m).1.id ∧
        al.endpointId = e.id) ∧
    (incidentInvariant db → incidentInvariant (createIncident db now d).2) ∧
    (incidentInvariant db →
      incidentInvariant (createIncidentFromError db now e errMsg errStatus m).2) := by
  refine ⟨?_, ?_, ?_, ?_, ?_, ?_⟩
  · intro i0 h0
    unfold createIncident
    rw [h0]
  · intro h0
    unfold createIncident
    rw [h0]
    refine ⟨rfl, rfl, rfl, rfl, ?_⟩
    exact ⟨_, rfl, rfl, rfl, rfl⟩
  · intro i0 h0
    unfold createIncidentFromError
    rw [h0]
  · intro h0
    unfold createIncidentFromError
    rw [h0]
    refine ⟨rfl, rfl, rfl, rfl, rfl, ?_⟩
    exact ⟨_, rfl, rfl, rfl, rfl⟩
  · intro hinv
    cases h0 : db.incidents.find? (fun i => decide (incidentOpenMatch d.endpointId i)) with
    | some i0 =>
      have : createIncident db now d = (i0, db) := by
        unfold createIncident
        rw [h0]
      rw [this]
      exact hinv
    | none =>
      unfold createIncident
      rw [h0]
      intro eid2
      exact incidentInvariant_insert h0 rfl hinv eid2
  · intro hinv
    cases h0 : db.incidents.find? (fun i => decide (incidentOpenMatch e.id i)) with
    | some i0 =>
      have : createIncidentFromError db now e errMsg errStatus m = (i0, db) := by
        unfold createIncidentFromError
        rw [h0]
      rw [this]
      exact hinv
    | none =>
      unfold createIncidentFromError
      rw [h0]
      intro eid2
      exact incidentInvariant_insert h0 rfl hinv eid2

/-- A sample incident payload. -/
def incidentData0 : IncidentData :=
  { endpointId := 1
    title := "High Error Rate for /api/users"
    message := "Error rate exceeds twice the threshold"
    severity := Severity.HIGH
    ty := none }

/-- A sample endpoint. -/
def endpoint1 : Endpoint :=
  { id := 1
    path := "/api/users"
    isActive := true
    responseTimeThreshold := 500
    errorRateThreshold := 10
    availabilityThreshold := 99 }

/-- A sample failure metric row. -/
def metric0 : Metric :=
  { id := 1
    endpointId := 1
    timestamp := 0
    responseTime := none
    statusCode := some 0
    success := false
    errorMessage := some "connect ECONNREFUSED"
    metaData := none }

/-- Witness for C2 at a concrete input: inserting into an empty store yields
an OPEN incident (MEDIUM on the error path) and preserves the invariant. -/
theorem createIncident_unique_open_witness :
    (createIncident dbEmpty 0 incidentData0).1.status = IncidentStatus.OPEN ∧
    (createIncidentFromError dbEmpty 0 endpoint1 (some "connect ECONNREFUSED")
        none metric0).1.severity = Severity.MEDIUM ∧
    incidentInvariant (createIncident dbEmpty 0 incidentData0).2 := by
  have h := createIncident_unique_open dbEmpty 0 incidentData0 endpoint1
    (some "connect ECONNREFUSED") none metric0
  refine ⟨(h.2.1 rfl).2.1, (h.2.2.2.1 rfl).2.2.2.1, h.2.2.2.2.1 ?_⟩
  intro eid2
  simp [dbEmpty]

/-- C3: resolving an incident cascades.  When `updateIncidentStatus` is
called with status RESOLVED on an existing incident, the incident's status
becomes RESOLVED, its `resolution`, `resolvedBy` and `endTime` fields are
set, the updated incident is stored, and every alert whose `incidentId`
links it to that incident has its status set to RESOLVED (no alert rows are
added or removed). -/
theorem updateIncidentStatus_resolve_cascades (db : DB) (now : Int) (id : Nat)
    (res rb user : Option String) (inc0 : Incident)
    (h : db.incidents.find? (fun i => decide (i.id = id)) = some inc0) :
    ∃ inc2,
      (updateIncidentStatus db now id IncidentStatus.RESOLVED res rb user).1 =
        UpdateResult.ok inc2 ∧
      inc2.status = IncidentStatus.RESOLVED ∧
      inc2.resolution = some (res.getD "Resolved without details") ∧
      inc2.resolvedBy = some (rb.getD (user.getD "System")) ∧
      inc2.endTime = some now ∧
      inc2 ∈ (updateIncidentStatus db now id IncidentStatus.RESOLVED res rb user).2.incidents ∧
      (∀ a ∈ (updateIncidentStatus db now id IncidentStatus.RESOLVED res rb user).2.alerts,
        a.incidentId = some id → a.status = AlertStatus.RESOLVED) ∧
      (updateIncidentStatus db now id IncidentStatus.RESOLVED res rb user).2.alerts.length =
        db.alerts.length := by
  have hid : inc0.id = id := by
    have := List.find?_some h
    simpa using this
  have hmem : inc0 ∈ db.incidents := List.mem_of_find?_eq_some h
  unfold updateIncidentStatus
  rw [h]
  dsimp only
  rw [if_pos rfl, if_pos rfl]
  refine ⟨_, rfl, rfl, rfl, rfl, rfl, ?_, ?_, ?_⟩
  · simp only
    refine List.mem_map.mpr ⟨inc0, hmem, ?_⟩
    rw [if_pos hid]
  · simp only
    intro a ha hlink
    obtain ⟨x, hx, rfl⟩ := List.mem_map.mp ha
    by_cases hxi : x.incidentId = some id
    · rw [if_pos hxi]
    · rw [if_neg hxi] at hlink ⊢
      exact absurd hlink hxi
  · simp only [List.length_map]

/-- A sample open incident row. -/
def incidentOpen0 : Incident :=
  { id := 1
    endpointId := 1
    title := "Error detected for /api/users"
    message := "connect ECONNREFUSED"
    startTime := 0
    endTime := none
    status := IncidentStatus.OPEN
    severity := Severity.MEDIUM
    statusCode := some 0
    resolvedBy := none
    resolution := none }

/-- A sample alert row linked to `incidentOpen0`. -/
def alertLinked0 : Alert :=
  { id := 1
    endpointId := 1
    incidentId := some 1
    type := AlertType.STATUS_CODE
    message := "Error detected: connect ECONNREFUSED"
    timestamp := 0
    value := none
    threshold := none
    status := AlertStatus.NEW
    acknowledgedAt := none
    acknowledgedBy := none
    createdAt := 0 }

/-- A store holding one open incident with one linked NEW alert. -/
def dbWithIncident : DB :=
  { dbEmpty with
    incidents := [incidentOpen0]
    alerts := [alertLinked0]
    nextAlertId := 2
    nextIncidentId := 2 }

/-- Witness for C3 at a concrete input: resolving the stored incident yields
a RESOLVED incident with its `endTime` set. -/
theorem updateIncidentStatus_resolve_cascades_witness :
    ∃ inc2,
      (updateIncidentStatus dbWithIncident 5 1 IncidentStatus.RESOLVED none none none).1 =
        UpdateResult.ok inc2 ∧
      inc2.status = IncidentStatus.RESOLVED ∧
      inc2.endTime = some 5 := by
  obtain ⟨inc2, h1, h2, _, _, h5, -⟩ :=
    updateIncidentStatus_resolve_cascades dbWithIncident 5 1 none none none
      incidentOpen0 (by decide)
  exact ⟨inc2, h1, h2, h5⟩

/-- The availability component stays within its weight. -/
theorem availabilityScore_bounds (ms : List Metric) :
    0 ≤ availabilityScore ms ∧ availabilityScore ms ≤ 40 := by
  unfold availabilityScore successCount
  constructor
  · exact mul_nonneg (div_nonneg (by positivity) (by positivity)) (by norm_num)
  · rcases Nat.eq_zero_or_pos ms.length with h | h
    · rw [h]
      norm_num
    · have hle : ((ms.filter (fun m => m.success)).length : ℚ) ≤ (ms.length : ℚ) := by
        exact_mod_cast List.length_filter_le _ ms
      have hpos : (0 : ℚ) < (ms.length : ℚ) := by exact_mod_cast h
      have hdiv : ((ms.filter (fun m => m.success)).length : ℚ) / (ms.length : ℚ) ≤ 1 :=
        (div_le_one hpos).mpr hle
      nlinarith

/-- The response-time component stays within its weight. -/
theorem responseTimeScore_bounds (e : Endpoint) (ms : List Metric) :
    0 ≤ responseTimeScore e ms ∧ responseTimeScore e ms ≤ 30 := by
  unfold responseTimeScore
  have havg : 0 ≤ avgResponseTime ms := by
    unfold avgResponseTime
    refine div_nonneg (List.sum_nonneg ?_) (by exact_mod_cast Nat.zero_le _)
    intro x hx
    obtain ⟨m, -, rfl⟩ := List.mem_map.mp hx
    exact_mod_cast Nat.zero_le _
  have hden : 0 < (if avgResponseTime ms = 0 then 1 else avgResponseTime ms) := by
    by_cases h : avgResponseTime ms = 0
    · rw [if_pos h]; norm_num
    · rw [if_neg h]; exact lt_of_le_of_ne havg (Ne.symm h)
  have hx : 0 ≤ (e.responseTimeThreshold : ℚ) /
      (if avgResponseTime ms = 0 then 1 else avgResponseTime ms) :=
    div_nonneg (by positivity) (le_of_lt hden)
  constructor
  · have : (0 : ℚ) ≤ min 1 ((e.responseTimeThreshold : ℚ) /
        (if avgResponseTime ms = 0 then 1 else avgResponseTime ms)) :=
      le_min (by norm_num) hx
    nlinarith
  · have : min 1 ((e.responseTimeThreshold : ℚ) /
        (if avgResponseTime ms = 0 then 1 else avgResponseTime ms)) ≤ 1 :=
      min_le_left _ _
    nlinarith

/-- The error-rate component stays within its weight when the configured
threshold is nonnegative (the model validates it to the range 0 to 100). -/
theorem errorRateScore_bounds (e : Endpoint) (ms : List Metric)
    (hthr : 0 ≤ e.errorRateThreshold) :
    0 ≤ errorRateScore e ms ∧ errorRateScore e ms ≤ 20 := by
  unfold errorRateScore
  have hrate : 0 ≤ healthErrorRate ms := by
    unfold healthErrorRate
    exact mul_nonneg
      (div_nonneg (by exact_mod_cast Nat.zero_le _) (by exact_mod_cast Nat.zero_le _))
      (by norm_num)
  have hden : 0 < (if healthErrorRate ms = 0 then 1 / 10 else healthErrorRate ms) := by
    by_cases h : healthErrorRate ms = 0
    · rw [if_pos h]; norm_num
    · rw [if_neg h]; exact lt_of_le_of_ne hrate (Ne.symm h)
  have hx : 0 ≤ e.errorRateThreshold /
      (if healthErrorRate ms = 0 then 1 / 10 else healthErrorRate ms) :=
    div_nonneg hthr (le_of_lt hden)
  constructor
  · have : (0 : ℚ) ≤ min 1 (e.errorRateThreshold /
        (if healthErrorRate ms = 0 then 1 / 10 else healthErrorRate ms)) :=
      le_min (by norm_num) hx
    nlinarith
  · have : min 1 (e.errorRateThreshold /
        (if healthErrorRate ms = 0 then 1 / 10 else healthErrorRate ms)) ≤ 1 :=
      min_le_left _ _
    nlinarith

/-- The guarded stability divisor is positive. -/
theorem stabilityDivisor_pos (vs : List Nat) : 0 < stabilityDivisor vs := by
  unfold stabilityDivisor
  by_cases h : stdDeviation vs = 0
  · rw [if_pos h]; norm_num
  · rw [if_neg h]
    exact lt_of_le_of_ne (Real.sqrt_nonneg _) (Ne.symm h)

/-- The stability component stays within its weight. -/
theorem stabilityScore_bounds (ms : List Metric) :
    0 ≤ stabilityScore ms ∧ stabilityScore ms ≤ 10 := by
  unfold stabilityScore
  have hden := stabilityDivisor_pos (responseTimeValues ms)
  have hx : (0 : ℝ) ≤ 100 / stabilityDivisor (responseTimeValues ms) :=
    div_nonneg (by norm_num) (le_of_lt hden)
  constructor
  · have : (0 : ℝ) ≤ min 1 (100 / stabilityDivisor (responseTimeValues ms)) :=
      le_min (by norm_num) hx
    nlinarith
  · have : min 1 (100 / stabilityDivisor (responseTimeValues ms)) ≤ 1 :=
      min_le_left _ _
    nlinarith

/-- With at most one nonzero response-time sample the standard deviation is
degenerate (0, or NaN for zero samples) and the JS falsy guard replaces it
by 1. -/
theorem stabilityDivisor_eq_one_of_small (vs : List Nat) (h : vs.length ≤ 1) :
    stabilityDivisor vs = 1 := by
  have hsd : stdDeviation vs = 0 := by
    match vs with
    | [] =>
      unfold stdDeviation avgSquareDiff
      simp
    | [v] =>
      unfold stdDeviation avgSquareDiff
      simp
    | a :: b :: rest =>
      simp at h
  unfold stabilityDivisor
  rw [if_pos hsd]

/-- C4: the health score of an endpoint over its trailing-24h metric set is
`null` exactly when the set is empty; on a non-empty set (with the
endpoint's nonnegative error-rate threshold) it is the rounding of the sum
of the four weighted components and lies between 0 and 100; and the
stability divisor degenerates to 1 whenever there is at most one nonzero
response-time sample. -/
theorem calculateEndpointHealthScore_range (db : DB) (now : Int) (e : Endpoint)
    (hthr : 0 ≤ e.errorRateThreshold) :
    (dayMetrics db now e.id = [] → calculateEndpointHealthScore db now e = none) ∧
    (dayMetrics db now e.id ≠ [] →
      calculateEndpointHealthScore db now e =
        some (round (healthTotalReal e (dayMetrics db now e.id))) ∧
      0 ≤ round (healthTotalReal e (dayMetrics db now e.id)) ∧
      round (healthTotalReal e (dayMetrics db now e.id)) ≤ 100) ∧
    (∀ ms : List Metric, (responseTimeValues ms).length ≤ 1 →
      stabilityDivisor (responseTimeValues ms) = 1) := by
  refine ⟨?_, ?_, fun ms h => stabilityDivisor_eq_one_of_small _ h⟩
  · intro h
    unfold calculateEndpointHealthScore
    rw [if_pos (by rw [h]; rfl)]
  · intro h
    have hlen : dayMetrics db now e.id ≠ [] := h
    have hres : calculateEndpointHealthScore db now e =
        some (round (healthTotalReal e (dayMetrics db now e.id))) := by
      unfold calculateEndpointHealthScore
      rw [if_neg (fun hc => hlen (List.length_eq_zero.mp hc))]
    refine ⟨hres, ?_, ?_⟩
    · have h1 := availabilityScore_bounds (dayMetrics db now e.id)
      have h2 := responseTimeScore_bounds e (dayMetrics db now e.id)
      have h3 := errorRateScore_bounds e (dayMetrics db now e.id) hthr
      have h4 := stabilityScore_bounds (dayMetrics db now e.id)
      have htot : (0 : ℝ) ≤ healthTotalReal e (dayMetrics db now e.id) := by
        unfold healthTotalReal
        have c1 : (0 : ℝ) ≤ (availabilityScore (dayMetrics db now e.id) : ℝ) := by
          exact_mod_cast h1.1
        have c2 : (0 : ℝ) ≤ (responseTimeScore e (dayMetrics db now e.id) : ℝ) := by
          exact_mod_cast h2.1
        have c3 : (0 : ℝ) ≤ (errorRateScore e (dayMetrics db now e.id) : ℝ) := by
          exact_mod_cast h3.1
        linarith [h4.1]
      rw [round_eq]
      rw [Int.floor_nonneg]
      linarith
    · have h1 := availabilityScore_bounds (dayMetrics db now e.id)
      have h2 := responseTimeScore_bounds e (dayMetrics db now e.id)
      have h3 := errorRateScore_bounds e (dayMetrics db now e.id) hthr
      have h4 := stabilityScore_bounds (dayMetrics db now e.id)
      have htot : healthTotalReal e (dayMetrics db now e.id) ≤ 100 := by
        unfold healthTotalReal
        have c1 : (availabilityScore (dayMetrics db now e.id) : ℝ) ≤ 40 := by
          exact_mod_cast h1.2
        have c2 : (responseTimeScore e (dayMetrics db now e.id) : ℝ) ≤ 30 := by
          exact_mod_cast h2.2
        have c3 : (errorRateScore e (dayMetrics db now e.id) : ℝ) ≤ 20 := by
          exact_mod_cast h3.2
        linarith [h4.2]
      rw [round_eq]
      have : ⌊healthTotalReal e (dayMetrics db now e.id) + 1 / 2⌋ < 101 := by
        rw [Int.floor_lt]
        push_cast
        linarith
      omega

/-- A store with one trailing-24h failure metric for endpoint 1. -/
def dbHealth : DB :=
  { dbEmpty with metrics := [metric0], nextAlertId := 1 }

/-- Witness for C4 at a concrete input: on a store with one metric the score
is defined and lies between 0 and 100; on the empty store it is `null`. -/
theorem calculateEndpointHealthScore_range_witness :
    calculateEndpointHealthScore dbHealth 0 endpoint1 =
      some (round (healthTotalReal endpoint1 (dayMetrics dbHealth 0 endpoint1.id))) ∧
    0 ≤ round (healthTotalReal endpoint1 (dayMetrics dbHealth 0 endpoint1.id)) ∧
    round (healthTotalReal endpoint1 (dayMetrics dbHealth 0 endpoint1.id)) ≤ 100 ∧
    calculateEndpointHealthScore dbEmpty 0 endpoint1 = none := by
  have h1 := (calculateEndpointHealthScore_range dbHealth 0 endpoint1
    (by norm_num [endpoint1])).2.1 (by decide)
  have h2 := (calculateEndpointHealthScore_range dbEmpty 0 endpoint1
    (by norm_num [endpoint1])).1 (by decide)
  exact ⟨h1.1, h1.2.1, h1.2.2, h2⟩

/-- Shape of `createAlert` on a dedup miss. -/
theorem createAlert_none (db : DB) (now : Int) (d : AlertData)
    (h : db.alerts.find? (fun a => decide (alertDedupMatch now d.endpointId d.type a)) = none) :
    createAlert db now d =
      ({ id := db.nextAlertId
         endpointId := d.endpointId
         incidentId := none
         type := d.type
         message := d.message
         timestamp := now
         value := d.value
         threshold := d.threshold
         status := AlertStatus.NEW
         acknowledgedAt := none
         acknowledgedBy := none
         createdAt := now },
       { db with
         alerts := db.alerts ++
           [{ id := db.nextAlertId
              endpointId := d.endpointId
              incidentId := none
              type := d.type
              message := d.message
              timestamp := now
              value := d.value
              threshold := d.threshold
              status := AlertStatus.NEW
              acknowledgedAt := none
              acknowledgedBy := none
              createdAt := now }]
         nextAlertId := db.nextAlertId + 1 }) := by
  unfold createAlert
  rw [h]

/-- Shape of `createIncident` on a dedup miss. -/
theorem createIncident_none (db : DB) (now : Int) (d : IncidentData)
    (h : db.incidents.find? (fun i => decide (incidentOpenMatch d.endpointId i)) = none) :
    createIncident db now d =
      ({ id := db.nextIncidentId
         endpointId := d.endpointId
         title := d.title
         message := d.message
         startTime := now
         endTime := none
         status := IncidentStatus.OPEN
         severity := d.severity
         statusCode := none
         resolvedBy := none
         resolution := none },
       { db with
         incidents := db.incidents ++
           [{ id := db.nextIncidentId
              endpointId := d.endpointId
              title := d.title
              message := d.message
              startTime := now
              endTime := none
              status := IncidentStatus.OPEN
              severity := d.severity
              statusCode := none
              resolvedBy := none
              resolution := none }]
         alerts := db.alerts ++
           [{ id := db.nextAlertId
              endpointId := d.endpointId
              incidentId := some db.nextIncidentId
              type := d.ty.getD AlertType.OTHER
              message := d.message
              timestamp := now
              value := none
              threshold := none
              status := AlertStatus.NEW
              acknowledgedAt := none
              acknowledgedBy := none
              createdAt := now }]
         nextIncidentId := db.nextIncidentId + 1
         nextAlertId := db.nextAlertId + 1 }) := by
  unfold createIncident
  rw [h]

/-- Shape of `createIncident` on a dedup hit. -/
theorem createIncident_some (db : DB) (now : Int) (d : IncidentData) (i0 : Incident)
    (h : db.incidents.find? (fun i => decide (incidentOpenMatch d.endpointId i)) = some i0) :
    createIncident db now d = (i0, db) := by
  unfold createIncident
  rw [h]

/-- C5: when the trailing-hour window is non-empty and the error rate
exceeds the threshold (and no dedup hit suppresses the alert), an
ERROR_RATE alert with value equal to the computed rate and threshold equal
to the configured threshold is inserted; when the rate additionally exceeds
twice the threshold (and no open incident exists for the endpoint), a HIGH
incident titled after the endpoint path is inserted as well. -/
theorem checkErrorRate_breach (db : DB) (now : Int) (e : Endpoint)
    (hne : hourMetrics db now e.id ≠ [])
    (hrate : e.errorRateThreshold < errorRateOf (hourMetrics db now e.id))
    (hded : db.alerts.find? (fun a =>
      decide (alertDedupMatch now e.id AlertType.ERROR_RATE a)) = none) :
    (∃ a rest, (checkErrorRate db now e).alerts = db.alerts ++ a :: rest ∧
      a.type = AlertType.ERROR_RATE ∧
      a.value = some (errorRateOf (hourMetrics db now e.id)) ∧
      a.threshold = some e.errorRateThreshold ∧
      a.endpointId = e.id ∧ a.status = AlertStatus.NEW) ∧
    (e.errorRateThreshold * 2 < errorRateOf (hourMetrics db now e.id) →
      db.incidents.find? (fun i => decide (incidentOpenMatch e.id i)) = none →
      ∃ inc, (checkErrorRate db now e).incidents = db.incidents ++ [inc] ∧
        inc.severity = Severity.HIGH ∧
        inc.title = "High Error Rate for " ++ e.path ∧
        inc.endpointId = e.id ∧ inc.status = IncidentStatus.OPEN) := by
  have h0 : ¬(hourMetrics db now e.id).length = 0 :=
    fun hc => hne (List.length_eq_zero.mp hc)
  unfold checkErrorRate
  rw [if_neg h0, if_pos hrate, createAlert_none db now _ hded]
  dsimp only
  by_cases h2 : e.errorRateThreshold * 2 < errorRateOf (hourMetrics db now e.id)
  · rw [if_pos h2]
    constructor
    · cases hI : db.incidents.find? (fun i => decide (incidentOpenMatch e.id i)) with
      | some i0 =>
        rw [createIncident_some _ now _ _ (by exact hI)]
        dsimp only
        exact ⟨_, [], rfl, rfl, rfl, rfl, rfl, rfl⟩
      | none =>
        rw [createIncident_none _ now _ (by exact hI)]
        dsimp only
        simp only [List.append_assoc, List.cons_append, List.nil_append]
        exact ⟨_, _, rfl, rfl, rfl, rfl, rfl, rfl⟩
    · intro _ hdedi
      rw [createIncident_none _ now _ (by exact hdedi)]
      dsimp only
      exact ⟨_, rfl, rfl, rfl, rfl, rfl⟩
  · rw [if_neg h2]
    exact ⟨⟨_, [], rfl, rfl, rfl, rfl, rfl, rfl⟩, fun hc _ => absurd hc h2⟩

/-- A probe metric row for endpoint 1 at time 0. -/
def probeMetric (i : Nat) (succ : Bool) : Metric :=
  { id := i
    endpointId := 1
    timestamp := 0
    responseTime := some 100
    statusCode := some (if succ then 200 else 500)
    success := succ
    errorMessage := none
    metaData := none }

/-- Scenario B store: 10 trailing-hour metrics for endpoint 1, 6 failing. -/
def dbScenB : DB :=
  { dbEmpty with metrics :=
      [probeMetric 1 false, probeMetric 2 false, probeMetric 3 false,
       probeMetric 4 false, probeMetric 5 false, probeMetric 6 false,
       probeMetric 7 true, probeMetric 8 true, probeMetric 9 true,
       probeMetric 10 true] }

/-- Witness for C5 at Scenario B: 10 metrics with 6 failing and threshold 10
give rate 60, an ERROR_RATE alert carrying value 60 and threshold 10, and a
HIGH incident titled after the path. -/
theorem checkErrorRate_breach_witness :
    errorRateOf (hourMetrics dbScenB 0 endpoint1.id) = 60 ∧
    (∃ a rest, (checkErrorRate dbScenB 0 endpoint1).alerts = dbScenB.alerts ++ a :: rest ∧
      a.type = AlertType.ERROR_RATE ∧
      a.value = some (errorRateOf (hourMetrics dbScenB 0 endpoint1.id)) ∧
      a.threshold = some endpoint1.errorRateThreshold) ∧
    (∃ inc, (checkErrorRate dbScenB 0 endpoint1).incidents = dbScenB.incidents ++ [inc] ∧
      inc.severity = Severity.HIGH ∧
      inc.title = "High Error Rate for " ++ endpoint1.path) := by
  have h6 : ((hourMetrics dbScenB 0 endpoint1.id).filter (fun m => !m.success)).length = 6 := by
    decide
  have h10 : ((hourMetrics dbScenB 0 endpoint1.id).length : ℚ) = 10 := by
    norm_num [show (hourMetrics dbScenB 0 endpoint1.id).length = 10 from by decide]
  have hrate : errorRateOf (hourMetrics dbScenB 0 endpoint1.id) = 60 := by
    unfold errorRateOf
    rw [h6, h10]
    norm_num
  have hthr : endpoint1.errorRateThreshold = 10 := rfl
  have h := checkErrorRate_breach dbScenB 0 endpoint1 (by decide)
    (by rw [hrate, hthr]; norm_num) rfl
  obtain ⟨⟨a, rest, h1, h2, h3, h4, -, -⟩, hp2⟩ := h
  obtain ⟨inc, h5, h6a, h7, -, -⟩ := hp2 (by rw [hrate, hthr]; norm_num) rfl
  exact ⟨hrate, ⟨a, rest, h1, h2, h3, h4⟩, ⟨inc, h5, h6a, h7⟩⟩

/-- C6: an empty trailing-hour metric window makes both the error-rate check
and the availability check return with the store untouched — the check is
skipped rather than treated as a 0 percent or 100 percent observation, and
no error is raised (both model functions are total). -/
theorem emptyWindow_skips (db : DB) (now : Int) (e : Endpoint)
    (h : hourMetrics db now e.id = []) :
    checkErrorRate db now e = db ∧ checkAvailability db now e = db := by
  have h0 : (hourMetrics db now e.id).length = 0 := by rw [h]; rfl
  constructor
  · unfold checkErrorRate
    rw [if_pos h0]
  · unfold checkAvailability
    rw [if_pos h0]

/-- Witness for C6 at a concrete input: with no metrics stored both checks
leave the store unchanged. -/
theorem emptyWindow_skips_witness :
    checkErrorRate dbEmpty 0 endpoint1 = dbEmpty ∧
    checkAvailability dbEmpty 0 endpoint1 = dbEmpty :=
  emptyWindow_skips dbEmpty 0 endpoint1 rfl

/-- The shape accepted by the time-range regex of `getEndpointMetrics`: a
non-empty digit run followed by a single unit character among `hdwmy`
(`charUnit` is `some` exactly on those five characters). -/
def wellFormedTimeRange (s : String) : Prop :=
  ∃ ds u, s.data = ds ++ [u] ∧ ds ≠ [] ∧ (∀ c ∈ ds, c.isDigit) ∧ (charUnit u).isSome

/-- C7: time-range parsing in `getEndpointMetrics`.  Every string made of a
non-empty digit run followed by one of the five unit characters parses to
its decimal value and unit; every string not of that shape is rejected —
the parse returns nothing and the handler raises the validation error
synchronously with a result that does not depend on the store, so no query
is made; and parsing `7d` succeeds with a start boundary exactly 7 times
24 hours before now. -/
theorem parseTimeRange_spec :
    (∀ (ds : List Char) (u : Char) (tu : TimeUnit), ds ≠ [] → (∀ c ∈ ds, c.isDigit) →
      charUnit u = some tu →
      parseTimeRange (String.mk (ds ++ [u])) = some (digitsToNat ds, tu)) ∧
    (∀ s : String, ¬wellFormedTimeRange s →
      parseTimeRange s = none ∧
      ∀ (db : DB) (endpointId : Nat), getEndpointMetricsParse db endpointId s =
        Except.error "Invalid time range format. Use format like 1h, 24h, 7d, etc.") ∧
    parseTimeRange "7d" = some (7, TimeUnit.days) ∧
    (∀ now : Int, timeRangeStart now 7 TimeUnit.days = some (now - 7 * (24 * hourMs))) := by
  refine ⟨?_, ?_, by decide, ?_⟩
  · intro ds u tu h1 h2 h3
    unfold parseTimeRange
    have hrev : (String.mk (ds ++ [u])).data.reverse = u :: ds.reverse := by
      simp
    rw [hrev]
    dsimp only
    rw [List.reverse_reverse]
    have hcond : (!ds.isEmpty && ds.all Char.isDigit) = true := by
      rw [Bool.and_eq_true]
      constructor
      · cases ds with
        | nil => exact absurd rfl h1
        | cons c cs => rfl
      · rw [List.all_eq_true]
        intro c hc
        exact h2 c hc
    rw [if_pos hcond, h3]
    rfl
  · intro s hs
    have hnone : parseTimeRange s = none := by
      unfold parseTimeRange
      cases hrev : s.data.reverse with
      | nil => rfl
      | cons u rds =>
        dsimp only
        by_cases hcond : (!rds.reverse.isEmpty && rds.reverse.all Char.isDigit) = true
        · rw [if_pos hcond]
          cases hu : charUnit u with
          | none => rfl
          | some tu =>
            exfalso
            apply hs
            have hcond2 := hcond
            rw [Bool.and_eq_true] at hcond2
            refine ⟨rds.reverse, u, ?_, ?_, ?_, ?_⟩
            · have h1 := congrArg List.reverse hrev
              rw [List.reverse_reverse] at h1
              rw [h1, List.reverse_cons]
            · intro hnil
              have hne := hcond2.1
              rw [hnil] at hne
              simp at hne
            · exact fun c hc => List.all_eq_true.mp hcond2.2 c hc
            · rw [hu]
              rfl
        · rw [if_neg hcond]
    refine ⟨hnone, ?_⟩
    intro db endpointId
    unfold getEndpointMetricsParse
    rw [hnone]
  · intro now
    unfold timeRangeStart unitFixedMs
    dsimp only [Option.map_some']
    norm_num [dayMs, hourMs]

/-- Witness for C7 at concrete inputs: `7d` parses with its boundary exactly
7 times 24 hours in the past, while the malformed `bogus` (whose last
character is no unit) is rejected with the validation error on a concrete
store. -/
theorem parseTimeRange_spec_witness :
    parseTimeRange (String.mk (['7'] ++ ['d'])) = some (digitsToNat ['7'], TimeUnit.days) ∧
    timeRangeStart 0 7 TimeUnit.days = some (0 - 7 * (24 * hourMs)) ∧
    parseTimeRange "bogus" = none ∧
    getEndpointMetricsParse dbEmpty 1 "bogus" =
      Except.error "Invalid time range format. Use format like 1h, 24h, 7d, etc." := by
  have hbogus : ¬wellFormedTimeRange "bogus" := by
    rintro ⟨ds, u, heq, -, -, hu⟩
    have h1 : (ds ++ [u]).getLast? = some u := by simp
    rw [← heq] at h1
    have h2 : ("bogus".data).getLast? = some 's' := by decide
    rw [h2] at h1
    injection h1 with h3
    rw [← h3] at hu
    exact absurd hu (by decide)
  have h := parseTimeRange_spec
  exact ⟨h.1 ['7'] 'd' TimeUnit.days (by decide) (by decide) rfl,
    h.2.2.2 0, (h.2.1 "bogus" hbogus).1, (h.2.1 "bogus" hbogus).2 dbEmpty 1⟩

/-- A scan step is a no-op while a matching non-RESOLVED in-window
SENSITIVE_DATA alert exists. -/
theorem scanStep_suppressed {now : Int} {eid : Nat} {db : DB} (m : Metric)
    (h : (db.securityAlerts.find? (fun a =>
      decide (secDedupMatch (now - hourMs) eid SecAlertType.SENSITIVE_DATA a))).isSome) :
    scanStep now eid db m = db := by
  unfold scanStep
  cases m.metaData with
  | none => rfl
  | some md =>
    dsimp only
    cases md.responseData with
    | none => rfl
    | some rd =>
      dsimp only
      by_cases hf : foundTypes rd = []
      · rw [if_pos hf]
      · rw [if_neg hf]
        cases hfind : db.securityAlerts.find? (fun a =>
          decide (secDedupMatch (now - hourMs) eid SecAlertType.SENSITIVE_DATA a)) with
        | some a0 => rfl
        | none => rw [hfind] at h; simp at h

/-- The whole metric loop is a no-op while a matching alert exists. -/
theorem scan_fold_suppressed {now : Int} {eid : Nat} (l : List Metric) (db : DB)
    (h : (db.securityAlerts.find? (fun a =>
      decide (secDedupMatch (now - hourMs) eid SecAlertType.SENSITIVE_DATA a))).isSome) :
    l.foldl (scanStep now eid) db = db := by
  induction l with
  | nil => rfl
  | cons m tl ih =>
    rw [List.foldl_cons, scanStep_suppressed m h]
    exact ih

/-- Each scan step either changes nothing or appends exactly one HIGH
SENSITIVE_DATA alert stamped at `now`. -/
theorem scanStep_cases (now : Int) (eid : Nat) (db : DB) (m : Metric) :
    scanStep now eid db m = db ∨
    ∃ a, scanStep now eid db m =
      { db with
        securityAlerts := db.securityAlerts ++ [a]
        nextSecurityAlertId := db.nextSecurityAlertId + 1 } ∧
      a.type = SecAlertType.SENSITIVE_DATA ∧ a.severity = Severity.HIGH ∧
      a.endpointId = eid ∧ a.status = SecAlertStatus.NEW ∧ a.timestamp = now := by
  unfold scanStep
  cases m.metaData with
  | none => exact Or.inl rfl
  | some md =>
    dsimp only
    cases md.responseData with
    | none => exact Or.inl rfl
    | some rd =>
      dsimp only
      by_cases hf : foundTypes rd = []
      · rw [if_pos hf]
        exact Or.inl rfl
      · rw [if_neg hf]
        cases hfind : db.securityAlerts.find? (fun a =>
          decide (secDedupMatch (now - hourMs) eid SecAlertType.SENSITIVE_DATA a)) with
        | some a0 => exact Or.inl rfl
        | none => exact Or.inr ⟨_, rfl, rfl, rfl, rfl, rfl, rfl⟩

/-- The metric loop appends at most one alert, and anything it appends is a
HIGH SENSITIVE_DATA alert for the endpoint stamped NEW at `now`. -/
theorem scan_fold_shape (now : Int) (eid : Nat) (l : List Metric) (db : DB) :
    ∃ extra, (l.foldl (scanStep now eid) db).securityAlerts = db.securityAlerts ++ extra ∧
      extra.length ≤ 1 ∧
      ∀ a ∈ extra, a.type = SecAlertType.SENSITIVE_DATA ∧ a.severity = Severity.HIGH ∧
        a.endpointId = eid ∧ a.status = SecAlertStatus.NEW ∧ a.timestamp = now := by
  induction l generalizing db with
  | nil => exact ⟨[], by simp, by simp, by simp⟩
  | cons m tl ih =>
    rcases scanStep_cases now eid db m with h | ⟨a, h, ha1, ha2, ha3, ha4, ha5⟩
    · rw [List.foldl_cons, h]
      exact ih db
    · rw [List.foldl_cons, h]
      have hsupp : (({ db with
          securityAlerts := db.securityAlerts ++ [a]
          nextSecurityAlertId := db.nextSecurityAlertId + 1 } : DB).securityAlerts.find?
            (fun x => decide (secDedupMatch (now - hourMs) eid
              SecAlertType.SENSITIVE_DATA x))).isSome := by
        rw [List.find?_isSome]
        refine ⟨a, by simp, ?_⟩
        simp only [decide_eq_true_iff]
        refine ⟨ha3, ha1, ?_, ?_⟩
        · rw [ha4]
          simp
        · rw [ha5]
          have : (0 : Int) ≤ hourMs := by norm_num [hourMs]
          omega
      rw [scan_fold_suppressed tl _ hsupp]
      refine ⟨[a], by simp, by simp, ?_⟩
      intro x hx
      rw [List.mem_singleton] at hx
      subst hx
      exact ⟨ha1, ha2, ha3, ha4, ha5⟩

/-- The stringified response data of a metric, when present (the loop reads
`metric.metaData.responseData` after the non-null `metaData` filter). -/
def metricResponseData (m : Metric) : Option String :=
  m.metaData.bind (fun md => md.responseData)

/-- A scan step ignores a metric with no response data or no detector
match. -/
theorem scanStep_no_match (now : Int) (eid : Nat) (db : DB) (m : Metric)
    (h : ∀ rd, metricResponseData m = some rd → foundTypes rd = []) :
    scanStep now eid db m = db := by
  unfold scanStep
  cases hmd : m.metaData with
  | none => rfl
  | some md =>
    dsimp only
    cases hrd : md.responseData with
    | none => rfl
    | some rd =>
      dsimp only
      have hf : foundTypes rd = [] := by
        apply h
        unfold metricResponseData
        rw [hmd]
        exact hrd
      rw [if_pos hf]

/-- The metric loop ignores any run of metrics with no response data or no
match. -/
theorem scan_fold_no_match (now : Int) (eid : Nat) (l : List Metric) (db : DB)
    (h : ∀ m ∈ l, ∀ rd, metricResponseData m = some rd → foundTypes rd = []) :
    l.foldl (scanStep now eid) db = db := by
  induction l with
  | nil => rfl
  | cons m tl ih =>
    rw [List.foldl_cons, scanStep_no_match now eid db m (h m (List.mem_cons_self m tl))]
    exact ih (fun m2 hm2 rd hrd => h m2 (List.mem_cons_of_mem m hm2) rd hrd)

/-- On a dedup miss, the scan creates exactly one HIGH SENSITIVE_DATA alert
listing the matched types of the first metric with a detector match. -/
theorem scan_creates_on_first_match (db : DB) (now : Int) (eid : Nat)
    (pre post : List Metric) (m : Metric) (rd : String)
    (hded : db.securityAlerts.find? (fun a =>
      decide (secDedupMatch (now - hourMs) eid SecAlertType.SENSITIVE_DATA a)) = none)
    (hsplit : sensitiveScanMetrics db now eid = pre ++ m :: post)
    (hpre : ∀ m2 ∈ pre, ∀ rd2, metricResponseData m2 = some rd2 → foundTypes rd2 = [])
    (hm : metricResponseData m = some rd)
    (hf : foundTypes rd ≠ []) :
    ((sensitiveScanMetrics db now eid).foldl (scanStep now eid) db).securityAlerts =
      db.securityAlerts ++
      [{ id := db.nextSecurityAlertId
         endpointId := eid
         type := SecAlertType.SENSITIVE_DATA
         severity := Severity.HIGH
         message := "Sensitive data exposure detected in API response"
         detectedTypes := foundTypes rd
         timestamp := now
         status := SecAlertStatus.NEW
         resolvedBy := none
         resolvedAt := none }] := by
  rw [hsplit, List.foldl_append, scan_fold_no_match now eid pre db hpre, List.foldl_cons]
  have hstep : scanStep now eid db m =
      { db with
        securityAlerts := db.securityAlerts ++
          [{ id := db.nextSecurityAlertId
             endpointId := eid
             type := SecAlertType.SENSITIVE_DATA
             severity := Severity.HIGH
             message := "Sensitive data exposure detected in API response"
             detectedTypes := foundTypes rd
             timestamp := now
             status := SecAlertStatus.NEW
             resolvedBy := none
             resolvedAt := none }]
        nextSecurityAlertId := db.nextSecurityAlertId + 1 } := by
    cases hmd : m.metaData with
    | none =>
      exfalso
      unfold metricResponseData at hm
      rw [hmd] at hm
      simp at hm
    | some md =>
      have hrd : md.responseData = some rd := by
        unfold metricResponseData at hm
        rw [hmd] at hm
        exact hm
      unfold scanStep
      rw [hmd]
      dsimp only
      rw [hrd]
      dsimp only
      rw [if_neg hf, hded]
  rw [hstep]
  have hsupp : (({ db with
      securityAlerts := db.securityAlerts ++
        [{ id := db.nextSecurityAlertId
           endpointId := eid
           type := SecAlertType.SENSITIVE_DATA
           severity := Severity.HIGH
           message := "Sensitive data exposure detected in API response"
           detectedTypes := foundTypes rd
           timestamp := now
           status := SecAlertStatus.NEW
           resolvedBy := none
           resolvedAt := none }]
      nextSecurityAlertId := db.nextSecurityAlertId + 1 } : DB).securityAlerts.find?
        (fun x => decide (secDedupMatch (now - hourMs) eid
          SecAlertType.SENSITIVE_DATA x))).isSome := by
    rw [List.find?_isSome]
    refine ⟨{ id := db.nextSecurityAlertId
              endpointId := eid
              type := SecAlertType.SENSITIVE_DATA
              severity := Severity.HIGH
              message := "Sensitive data exposure detected in API response"
              detectedTypes := foundTypes rd
              timestamp := now
              status := SecAlertStatus.NEW
              resolvedBy := none
              resolvedAt := none }, by simp, ?_⟩
    simp only [decide_eq_true_iff]
    refine ⟨rfl, rfl, by simp, ?_⟩
    have : (0 : Int) ≤ hourMs := by norm_num [hourMs]
    simp only
    omega
  rw [scan_fold_suppressed post _ hsupp]

/-- C8 (amended): the sensitive-data scan examines the first 100
trailing-hour metrics with response metadata as returned by the store (the
query has LIMIT 100 but no ORDER BY, so the examined rows are not
necessarily the most recent; insertion order in the model).  An existing
non-RESOLVED SENSITIVE_DATA alert in the trailing hour suppresses creation
entirely; one scan never appends more than one alert regardless of match
volume, and anything it appends is a HIGH SENSITIVE_DATA alert stamped NEW
at `now`; after a scan that created an alert, a second scan of the same
endpoint within the hour changes nothing; and on a dedup miss, when the
first examined metric with response data whose stringified form matches a
detector exists, exactly one HIGH alert is created listing the matched
pattern types. -/
theorem scanSensitiveData_spec (db : DB) (now : Int) (e : Endpoint) :
    ((db.securityAlerts.find? (fun a =>
        decide (secDedupMatch (now - hourMs) e.id SecAlertType.SENSITIVE_DATA a))).isSome →
      scanSensitiveData db now e = db) ∧
    (∃ extra, (scanSensitiveData db now e).securityAlerts = db.securityAlerts ++ extra ∧
      extra.length ≤ 1 ∧
      ∀ a ∈ extra, a.type = SecAlertType.SENSITIVE_DATA ∧ a.severity = Severity.HIGH ∧
        a.endpointId = e.id ∧ a.status = SecAlertStatus.NEW ∧ a.timestamp = now) ∧
    (∀ now2, now ≤ now2 → now2 ≤ now + hourMs →
      (scanSensitiveData db now e).securityAlerts ≠ db.securityAlerts →
      scanSensitiveData (scanSensitiveData db now e) now2 e = scanSensitiveData db now e) ∧
    (∀ (pre post : List Metric) (m : Metric) (rd : String),
      db.securityAlerts.find? (fun a =>
        decide (secDedupMatch (now - hourMs) e.id SecAlertType.SENSITIVE_DATA a)) = none →
      sensitiveScanMetrics db now e.id = pre ++ m :: post →
      (∀ m2 ∈ pre, ∀ rd2, metricResponseData m2 = some rd2 → foundTypes rd2 = []) →
      metricResponseData m = some rd →
      foundTypes rd ≠ [] →
      (scanSensitiveData db now e).securityAlerts = db.securityAlerts ++
        [{ id := db.nextSecurityAlertId
           endpointId := e.id
           type := SecAlertType.SENSITIVE_DATA
           severity := Severity.HIGH
           message := "Sensitive data exposure detected in API response"
           detectedTypes := foundTypes rd
           timestamp := now
           status := SecAlertStatus.NEW
           resolvedBy := none
           resolvedAt := none }]) := by
  refine ⟨?_, ?_, ?_, ?_⟩
  · intro h
    exact scan_fold_suppressed _ db h
  · exact scan_fold_shape now e.id _ db
  · intro now2 h1 h2 hne
    obtain ⟨extra, hX, hlen, hprops⟩ := scan_fold_shape now e.id (sensitiveScanMetrics db now e.id) db
    match extra, hlen with
    | [], _ =>
      rw [List.append_nil] at hX
      exact absurd hX hne
    | [a], _ =>
      obtain ⟨ha1, ha2, ha3, ha4, ha5⟩ := hprops a (List.mem_singleton_self a)
      have hsupp : (((scanSensitiveData db now e).securityAlerts).find?
          (fun x => decide (secDedupMatch (now2 - hourMs) e.id
            SecAlertType.SENSITIVE_DATA x))).isSome := by
        rw [List.find?_isSome]
        refine ⟨a, by
          rw [show (scanSensitiveData db now e).securityAlerts =
            db.securityAlerts ++ [a] from hX]
          simp, ?_⟩
        simp only [decide_eq_true_iff]
        refine ⟨ha3, ha1, ?_, ?_⟩
        · rw [ha4]
          simp
        · rw [ha5]
          omega
      exact scan_fold_suppressed _ _ hsupp
  · intro pre post m rd hded hsplit hpre hm hf
    exact scan_creates_on_first_match db now e.id pre post m rd hded hsplit hpre hm hf

/-- A metric whose stringified response data holds a quoted password
assignment. -/
def metricSensitive : Metric :=
  { id := 1
    endpointId := 1
    timestamp := 0
    responseTime := some 100
    statusCode := some 200
    success := true
    errorMessage := none
    metaData := some { headers := [], responseData := some "password: \"abc123\"" } }

/-- Scenario E store: one trailing-hour metric with leaked credentials. -/
def dbScenE : DB :=
  { dbEmpty with metrics := [metricSensitive] }

/-- Witness for C8 at Scenario E: response data containing a quoted
`password` assignment triggers exactly one HIGH SENSITIVE_DATA alert whose
details list the matched SECRET type, and a second scan within the hour
produces no duplicate. -/
theorem scanSensitiveData_spec_witness :
    (scanSensitiveData dbScenE 0 endpoint1).securityAlerts =
      dbScenE.securityAlerts ++
      [{ id := 1
         endpointId := 1
         type := SecAlertType.SENSITIVE_DATA
         severity := Severity.HIGH
         message := "Sensitive data exposure detected in API response"
         detectedTypes := foundTypes "password: \"abc123\""
         timestamp := 0
         status := SecAlertStatus.NEW
         resolvedBy := none
         resolvedAt := none }] ∧
    foundTypes "password: \"abc123\"" = [SecPatternType.SECRET] ∧
    scanSensitiveData (scanSensitiveData dbScenE 0 endpoint1) 100 endpoint1 =
      scanSensitiveData dbScenE 0 endpoint1 := by
  have h := scanSensitiveData_spec dbScenE 0 endpoint1
  refine ⟨?_, by decide, ?_⟩
  · exact h.2.2.2 [] [] metricSensitive ("password: \"abc123\"") rfl (by decide)
      (by simp) rfl (by decide)
  · exact h.2.2.1 100 (by norm_num) (by norm_num [hourMs]) (by decide)

/-- A benign trailing-hour metric with response metadata but no response
data. -/
def benignMetric (i : Nat) : Metric :=
  { id := i
    endpointId := 1
    timestamp := 0
    responseTime := some 100
    statusCode := some 200
    success := true
    errorMessage := none
    metaData := some { headers := [], responseData := none } }

/-- A leaking metric inserted last, carrying the single greatest timestamp
of the store. -/
def metricLeakLate : Metric :=
  { id := 101
    endpointId := 1
    timestamp := 50
    responseTime := some 100
    statusCode := some 200
    success := true
    errorMessage := none
    metaData := some { headers := [], responseData := some "password: \"abc123\"" } }

/-- A store with 100 earlier benign metrics followed by the leaking one. -/
def dbManyMetrics : DB :=
  { dbEmpty with
    metrics := ((List.range 100).map (fun i => benignMetric (i + 1))) ++ [metricLeakLate] }

/-- Counterexample to C8 as stated: the scan does not examine the most
recent 100 trailing-hour metrics.  The store holds 101 trailing-hour
metrics with response metadata; the single most recent one (the unique
metric with the maximal timestamp) matches the SECRET detector, so the 100
most recent metrics contain a match and no existing alert suppresses
creation — the claim predicts one HIGH alert — yet the scan, which takes
the first 100 rows the store returns (LIMIT without ORDER BY), never
examines it and creates nothing. -/
theorem scanSensitiveData_recent100_counterexample :
    foundTypes "password: \"abc123\"" ≠ [] ∧
    metricLeakLate ∈ dbManyMetrics.metrics.filter (fun m =>
      decide (m.endpointId = endpoint1.id ∧ 0 - hourMs ≤ m.timestamp ∧ m.metaData ≠ none)) ∧
    (dbManyMetrics.metrics.filter (fun m =>
      decide (m.endpointId = endpoint1.id ∧ 0 - hourMs ≤ m.timestamp ∧
        m.metaData ≠ none))).length = 101 ∧
    ((dbManyMetrics.metrics.filter (fun m =>
      decide (m.endpointId = endpoint1.id ∧ 0 - hourMs ≤ m.timestamp ∧
        m.metaData ≠ none))).filter
      (fun m => decide (metricLeakLate.timestamp ≤ m.timestamp))).length = 1 ∧
    metricLeakLate ∉ sensitiveScanMetrics dbManyMetrics 0 endpoint1.id ∧
    dbManyMetrics.securityAlerts = [] ∧
    scanSensitiveData dbManyMetrics 0 endpoint1 = dbManyMetrics :=
  ⟨by decide, by decide, by decide, by decide, by decide, rfl, by decide⟩

/-- A RESOLVED performance alert row. -/
def alertResolved0 : Alert :=
  { id := 1
    endpointId := 1
    incidentId := none
    type := AlertType.RESPONSE_TIME
    message := "Response time exceeds threshold"
    timestamp := 0
    value := some 800
    threshold := some 500
    status := AlertStatus.RESOLVED
    acknowledgedAt := none
    acknowledgedBy := none
    createdAt := 0 }

/-- A store holding one RESOLVED alert. -/
def dbResolvedAlert : DB :=
  { dbEmpty with alerts := [alertResolved0], nextAlertId := 2 }

/-- Counterexample to C9 as stated: `updateAlertStatus` accepts NEW on an
alert whose current status is RESOLVED and stores the backward transition —
the handler never consults the current status. -/
theorem updateAlertStatus_backward_counterexample :
    alertResolved0.status = AlertStatus.RESOLVED ∧
    (updateAlertStatus dbResolvedAlert 10 1 AlertStatus.NEW none).1 =
      UpdateResult.ok { alertResolved0 with status := AlertStatus.NEW } ∧
    (updateAlertStatus dbResolvedAlert 10 1 AlertStatus.NEW none).2.alerts =
      [{ alertResolved0 with status := AlertStatus.NEW }] :=
  ⟨rfl, by decide, by decide⟩

/-- C9 amended: `updateAlertStatus` validates only that the requested value
is one of the enum statuses and then stores it unconditionally, with no
forward-only check against the current status (RESOLVED back to NEW is
accepted); `acknowledgedAt`/`acknowledgedBy` are set exactly when the new
status is ACKNOWLEDGED and left untouched otherwise.  The security-alert
path likewise accepts any of its four statuses (including FALSE_POSITIVE)
from any current state, setting `resolvedBy`/`resolvedAt` exactly when the
new status is RESOLVED. -/
theorem updateAlertStatus_amended (db : DB) (now : Int) (id : Nat)
    (st : AlertStatus) (user : Option String) (a0 : Alert)
    (h : db.alerts.find? (fun a => decide (a.id = id)) = some a0) :
    (∃ a2, (updateAlertStatus db now id st user).1 = UpdateResult.ok a2 ∧
      a2.status = st ∧
      (st = AlertStatus.ACKNOWLEDGED →
        a2.acknowledgedAt = some now ∧ a2.acknowledgedBy = some (user.getD "System")) ∧
      (st ≠ AlertStatus.ACKNOWLEDGED →
        a2.acknowledgedAt = a0.acknowledgedAt ∧ a2.acknowledgedBy = a0.acknowledgedBy)) ∧
    (∀ (sid : Nat) (sst : SecAlertStatus) (srb : Option String) (sa0 : SecurityAlert),
      db.securityAlerts.find? (fun a => decide (a.id = sid)) = some sa0 →
      ∃ sa2, (updateSecurityAlertStatus db now sid sst srb).1 = UpdateResult.ok sa2 ∧
        sa2.status = sst ∧
        (sst = SecAlertStatus.RESOLVED →
          sa2.resolvedBy = srb ∧ sa2.resolvedAt = some now) ∧
        (sst ≠ SecAlertStatus.RESOLVED →
          sa2.resolvedBy = sa0.resolvedBy ∧ sa2.resolvedAt = sa0.resolvedAt)) := by
  constructor
  · unfold updateAlertStatus
    rw [h]
    dsimp only
    by_cases hst : st = AlertStatus.ACKNOWLEDGED
    · rw [if_pos hst]
      exact ⟨_, rfl, rfl, fun _ => ⟨rfl, rfl⟩, fun hne => absurd hst hne⟩
    · rw [if_neg hst]
      exact ⟨_, rfl, rfl, fun hc => absurd hc hst, fun _ => ⟨rfl, rfl⟩⟩
  · intro sid sst srb sa0 hs
    unfold updateSecurityAlertStatus
    rw [hs]
    dsimp only
    by_cases hst : sst = SecAlertStatus.RESOLVED
    · rw [if_pos hst]
      exact ⟨_, rfl, rfl, fun _ => ⟨rfl, rfl⟩, fun hne => absurd hst hne⟩
    · rw [if_neg hst]
      exact ⟨_, rfl, rfl, fun hc => absurd hc hst, fun _ => ⟨rfl, rfl⟩⟩

/-- A NEW security alert row. -/
def secAlertNew0 : SecurityAlert :=
  { id := 1
    endpointId := 1
    type := SecAlertType.SENSITIVE_DATA
    severity := Severity.HIGH
    message := "Sensitive data exposure detected in API response"
    detectedTypes := [SecPatternType.SECRET]
    timestamp := 0
    status := SecAlertStatus.NEW
    resolvedBy := none
    resolvedAt := none }

/-- A store holding one RESOLVED alert and one NEW security alert. -/
def dbStatusSample : DB :=
  { dbEmpty with
    alerts := [alertResolved0]
    securityAlerts := [secAlertNew0]
    nextAlertId := 2
    nextSecurityAlertId := 2 }

/-- Witness for the amended C9 at a concrete input: acknowledging sets the
acknowledgement fields, and the security path accepts FALSE_POSITIVE. -/
theorem updateAlertStatus_amended_witness :
    ∃ a2, (updateAlertStatus dbStatusSample 7 1 AlertStatus.ACKNOWLEDGED
        (some "alice")).1 = UpdateResult.ok a2 ∧
      a2.status = AlertStatus.ACKNOWLEDGED ∧
      a2.acknowledgedAt = some 7 ∧
      ∃ sa2, (updateSecurityAlertStatus dbStatusSample 7 1
          SecAlertStatus.FALSE_POSITIVE none).1 = UpdateResult.ok sa2 ∧
        sa2.status = SecAlertStatus.FALSE_POSITIVE := by
  obtain ⟨⟨a2, h1, h2, h3, -⟩, hsec⟩ :=
    updateAlertStatus_amended dbStatusSample 7 1 AlertStatus.ACKNOWLEDGED
      (some "alice") alertResolved0 (by decide)
  obtain ⟨sa2, h4, h5, -, -⟩ :=
    hsec 1 SecAlertStatus.FALSE_POSITIVE none secAlertNew0 (by decide)
  exact ⟨a2, h1, h2, (h3 rfl).1, sa2, h4, h5⟩

/-- C10: the failure metric persisted by the transport-error branch of
`collectEndpointMetrics` always carries a non-null `statusCode` — the
error's response status when present and 0 otherwise — even though the
`Metric` model declares the column nullable, so a missing HTTP response and
a hypothetical status 0 are indistinguishable through `statusCode` alone
(the metric records the error message as the discriminator). -/
theorem failureMetric_statusCode_total (nid : Nat) (e : Endpoint) (now : Int)
    (errMsg : String) (errStatus : Option Int) :
    (failureMetric nid e now errMsg errStatus).statusCode = some (errStatus.getD 0) ∧
    (failureMetric nid e now errMsg errStatus).statusCode ≠ none ∧
    (failureMetric nid e now errMsg none).statusCode =
      (failureMetric nid e now errMsg (some 0)).statusCode ∧
    (failureMetric nid e now errMsg errStatus).success = false ∧
    (failureMetric nid e now errMsg errStatus).errorMessage = some errMsg :=
  ⟨rfl, by simp [failureMetric], rfl, rfl, rfl⟩

end Apiper
